import Mathlib

/-!
Verification of the TapTransit gateway (Rust) against its specification.

The Rust sources are shallowly embedded: `u8`/`u16`/`u32`/`u64` values become
`Nat` with explicit `% 2^w` (or saturation) where overflow matters, byte
buffers become `List Nat` whose elements are `< 256`, `f32` fare arithmetic
becomes exact `ℚ` arithmetic (the source only multiplies, compares and rounds
small currency values), strings become `String`, and `HashMap`s become
association lists.  Mutating methods become functions returning the updated
value.  Wall-clock reads (`current_epoch_millis`) become an explicit `nowMs`
argument.
-/

deriving instance DecidableEq for Except

set_option maxRecDepth 4096

/-- `u16::MAX + 1`. -/
def w16 : Nat := 65536

/-- `u32::MAX`. -/
def u32Max : Nat := 4294967295

/-- `u64::MAX`. -/
def u64Max : Nat := 18446744073709551615

/-- `u32` wrapping addition (`u32::wrapping_add`). -/
def wrapAdd32 (a b : Nat) : Nat := (a + b) % 4294967296

/-- `u32` saturating addition (`u32::saturating_add`). -/
def satAdd32 (a b : Nat) : Nat := min (a + b) u32Max

/-- `u64` saturating addition (`u64::saturating_add`). -/
def satAdd64 (a b : Nat) : Nat := min (a + b) u64Max

/-- Little-endian reconstruction of a `u16` from two bytes
    (`u16::from_le_bytes`). -/
def fromLe2 (b0 b1 : Nat) : Nat := b0 + 256 * b1

/-- Little-endian bytes of a `u16` value (`u16::to_le_bytes`). -/
def leBytes2 (v : Nat) : List Nat := [v % 256, v / 256 % 256]

/-- Little-endian reconstruction of a `u32` from four bytes
    (`u32::from_le_bytes`). -/
def fromLe4 (b0 b1 b2 b3 : Nat) : Nat :=
  b0 + 256 * b1 + 65536 * b2 + 16777216 * b3

/-- Little-endian bytes of a `u32` value (`u32::to_le_bytes`). -/
def leBytes4 (v : Nat) : List Nat :=
  [v % 256, v / 256 % 256, v / 65536 % 256, v / 16777216 % 256]

/-- Rust `f32::round`: round half away from zero, as an integer result on `ℚ`. -/
def ratRound (q : ℚ) : ℤ := if 0 ≤ q then ⌊q + 1/2⌋ else -⌊-q + 1/2⌋

/-- `state.rs` `round_currency`: `(value * 100.0).round() / 100.0`. -/
def roundCurrency (value : ℚ) : ℚ := (ratRound (value * 100) : ℚ) / 100

/-- Rust `Option::or`. -/
def optOr {α : Type} (a b : Option α) : Option α :=
  match a with
  | some x => some x
  | none => b

/-- `model.rs` `Direction`. -/
inductive Direction where
  | Up
  | Down
deriving DecidableEq, Repr

/-- `model.rs` `Direction::as_str`. -/
def Direction.asStr : Direction → String
  | .Up => "up"
  | .Down => "down"

/-- `card_data.rs` `CardStatus`. -/
inductive CardStatus where
  | Idle
  | InTrip
  | Blocked
deriving DecidableEq, Repr

/-- `card_data.rs` `CardStatus::from_u8`. -/
def CardStatus.fromU8 (value : Nat) : Option CardStatus :=
  match value with
  | 0 => some .Idle
  | 1 => some .InTrip
  | 2 => some .Blocked
  | _ => none

/-- `card_data.rs` `CardStatus::as_u8`. -/
def CardStatus.asU8 : CardStatus → Nat
  | .Idle => 0
  | .InTrip => 1
  | .Blocked => 2

/-- `card_data.rs` `CardStatus::as_str`. -/
def CardStatus.asStr : CardStatus → String
  | .Idle => "idle"
  | .InTrip => "in_trip"
  | .Blocked => "blocked"

/-- A card UID (`[u8; 4]`), four byte values. -/
structure Uid4 where
  b0 : Nat
  b1 : Nat
  b2 : Nat
  b3 : Nat
deriving DecidableEq, Repr

/-- `card_data.rs` `CardDataParseError`. -/
inductive CardDataParseError where
  | BadLength
  | BadMagic
  | BadVersion
  | BadUidLen
  | BadCrc
  | UnknownStatus
deriving DecidableEq, Repr

/-- `card_data.rs` `CardDataParseError::as_str`. -/
def CardDataParseError.asStr : CardDataParseError → String
  | .BadLength => "bad_length"
  | .BadMagic => "bad_magic"
  | .BadVersion => "bad_version"
  | .BadUidLen => "bad_uid_len"
  | .BadCrc => "bad_crc"
  | .UnknownStatus => "unknown_status"

/-- `card_data.rs` `CardData`. -/
structure CardData where
  uid : Uid4
  balance_cents : Nat
  status : CardStatus
  entry_station_id : Option Nat
  last_route_id : Option Nat
  last_direction : Option Direction
  last_board_station_id : Option Nat
  last_alight_station_id : Option Nat
deriving DecidableEq, Repr

/-- `card_data.rs` `CARD_DATA_LEN`. -/
def CARD_DATA_LEN : Nat := 32

/-- `card_data.rs` `CARD_DATA_BLOCK_START`. -/
def CARD_DATA_BLOCK_START : Nat := 8

/-- `card_data.rs` `CARD_DATA_BLOCK_COUNT`. -/
def CARD_DATA_BLOCK_COUNT : Nat := 2

/-- `card_data.rs` `CardData::new`. -/
def CardData.new (uid : Uid4) : CardData :=
  { uid := uid
    balance_cents := 0
    status := .Idle
    entry_station_id := none
    last_route_id := none
    last_direction := none
    last_board_station_id := none
    last_alight_station_id := none }

/-- One inner round of `card_data.rs` `crc16`: shift left, conditionally xor
    the polynomial, truncated to `u16`. -/
def crc16Round (c : Nat) : Nat :=
  if c.testBit 15 then ((c * 2) ^^^ 4129) % 65536 else (c * 2) % 65536

/-- One byte step of `card_data.rs` `crc16` (xor byte into the high half, then
    eight shift rounds). -/
def crc16Step (c b : Nat) : Nat :=
  crc16Round^[8] ((c ^^^ (b % 256) * 256) % 65536)

/-- `card_data.rs` `crc16`: CCITT CRC-16, initial `0xFFFF`, polynomial
    `0x1021`. -/
def crc16 (data : List Nat) : Nat := data.foldl crc16Step 65535

/-- `card_data.rs` `decode_optional_u16` (`0xFFFF` encodes `None`). -/
def decodeOptionalU16 (b0 b1 : Nat) : Option Nat :=
  let value := fromLe2 b0 b1
  if value = 65535 then none else some value

/-- `card_data.rs` `write_optional_u16` (little-endian bytes, `None` as
    `0xFFFF`). -/
def writeOptionalU16 (value : Option Nat) : List Nat :=
  leBytes2 (value.getD 65535)

/-- `card_data.rs` `decode_direction`. -/
def decodeDirection (value : Nat) : Option Direction :=
  match value with
  | 0 => some .Up
  | 1 => some .Down
  | _ => none

/-- `card_data.rs` `encode_direction`. -/
def encodeDirection (value : Option Direction) : Nat :=
  match value with
  | some .Up => 0
  | some .Down => 1
  | none => 255

/-- `card_data.rs` `CardData::from_bytes_verbose`: parse the 32-byte on-card
    record, checking magic, version, UID length and CRC. -/
def CardData.fromBytesVerbose (data : List Nat) :
    Except CardDataParseError CardData :=
  match data with
  | d0 :: d1 :: d2 :: d3 :: d4 :: d5 :: d6 :: d7 :: _d8 :: _d9 :: _d10 :: _d11 ::
      d12 :: d13 :: d14 :: d15 :: d16 :: _d17 :: d18 :: d19 :: d20 :: d21 ::
      d22 :: _d23 :: d24 :: d25 :: d26 :: d27 :: d28 :: d29 :: d30 :: d31 ::
      _rest =>
    if ¬(d0 = 84 ∧ d1 = 84) then .error .BadMagic
    else if d2 ≠ 1 then .error .BadVersion
    else if d3 ≠ 4 then .error .BadUidLen
    else
      let storedCrc := fromLe2 d30 d31
      let computedCrc :=
        crc16 [d0, d1, d2, d3, d4, d5, d6, d7, _d8, _d9, _d10, _d11, d12, d13,
          d14, d15, d16, _d17, d18, d19, d20, d21, d22, _d23, d24, d25, d26,
          d27, d28, d29]
      if storedCrc ≠ computedCrc then .error .BadCrc
      else
        match CardStatus.fromU8 d16 with
        | none => .error .UnknownStatus
        | some status =>
          .ok
            { uid := ⟨d4, d5, d6, d7⟩
              balance_cents := fromLe4 d12 d13 d14 d15
              status := status
              entry_station_id := decodeOptionalU16 d18 d19
              last_route_id := decodeOptionalU16 d20 d21
              last_direction := decodeDirection d22
              last_board_station_id := decodeOptionalU16 d24 d25
              last_alight_station_id := decodeOptionalU16 d26 d27 }
  | _ => .error .BadLength

/-- `card_data.rs` `CardData::from_bytes`. -/
def CardData.fromBytes (data : List Nat) : Option CardData :=
  (CardData.fromBytesVerbose data).toOption

/-- The first 30 bytes written by `card_data.rs` `CardData::to_bytes` (before
    the CRC is appended): magic, version, uid-len, uid, reserved, balance,
    status, trip fields. -/
def CardData.toBytesBody (c : CardData) : List Nat :=
  [84, 84, 1, 4, c.uid.b0, c.uid.b1, c.uid.b2, c.uid.b3, 0, 0, 0, 0] ++
    leBytes4 c.balance_cents ++
    [c.status.asU8, 0] ++
    writeOptionalU16 c.entry_station_id ++
    writeOptionalU16 c.last_route_id ++
    [encodeDirection c.last_direction, 0] ++
    writeOptionalU16 c.last_board_station_id ++
    writeOptionalU16 c.last_alight_station_id ++
    [0, 0]

/-- `card_data.rs` `CardData::to_bytes`: the 30-byte body followed by the
    little-endian CRC over the body. -/
def CardData.toBytes (c : CardData) : List Nat :=
  c.toBytesBody ++ leBytes2 (crc16 c.toBytesBody)

/-- `card_data.rs` `hex_val`. -/
def hexVal (byte : Nat) : Option Nat :=
  if 48 ≤ byte ∧ byte ≤ 57 then some (byte - 48)
  else if 97 ≤ byte ∧ byte ≤ 102 then some (byte - 97 + 10)
  else if 65 ≤ byte ∧ byte ≤ 70 then some (byte - 65 + 10)
  else none

/-- `card_data.rs` `decode_uid_hex`: parse an 8-hex-character card id into the
    4-byte UID.  (All accepting inputs are ASCII, so the `char` count used
    here agrees with Rust's byte count.) -/
def decodeUidHex (input : String) : Option Uid4 :=
  match input.data.map Char.toNat with
  | [c0, c1, c2, c3, c4, c5, c6, c7] =>
    match hexVal c0, hexVal c1, hexVal c2, hexVal c3,
        hexVal c4, hexVal c5, hexVal c6, hexVal c7 with
    | some h0, some l0, some h1, some l1, some h2, some l2, some h3, some l3 =>
      some ⟨h0 * 16 + l0, h1 * 16 + l1, h2 * 16 + l2, h3 * 16 + l3⟩
    | _, _, _, _, _, _, _, _ => none
  | _ => none

/-- Valid `CardData` field values: byte- and `u16`/`u32`-sized fields in
    range, optional ids never the `0xFFFF` sentinel. -/
def CardData.ValidFields (c : CardData) : Prop :=
  c.uid.b0 < 256 ∧ c.uid.b1 < 256 ∧ c.uid.b2 < 256 ∧ c.uid.b3 < 256 ∧
  c.balance_cents < 4294967296 ∧
  (∀ v ∈ c.entry_station_id, v < 65535) ∧
  (∀ v ∈ c.last_route_id, v < 65535) ∧
  (∀ v ∈ c.last_board_station_id, v < 65535) ∧
  (∀ v ∈ c.last_alight_station_id, v < 65535)

instance (c : CardData) : Decidable c.ValidFields := by
  unfold CardData.ValidFields
  infer_instance

/-!
## Exact currency arithmetic

The source stores fares as `f32` and only multiplies, adds, subtracts,
compares and rounds small two-decimal currency values; the embedding uses
exact rational arithmetic, represented as numerator/denominator pairs
(denominators are positive in every value the code builds).
-/

/-- A currency value: `num / den` (embedding of the source's `f32` fares). -/
structure Q where
  num : ℤ
  den : ℕ
deriving DecidableEq, Repr

/-- The rational `n`. -/
def Q.ofNat (n : Nat) : Q := ⟨n, 1⟩

/-- Multiplication. -/
def Q.mul (a b : Q) : Q := ⟨a.num * b.num, a.den * b.den⟩

/-- Addition. -/
def Q.add (a b : Q) : Q := ⟨a.num * b.den + b.num * a.den, a.den * b.den⟩

/-- Subtraction. -/
def Q.sub (a b : Q) : Q := ⟨a.num * b.den - b.num * a.den, a.den * b.den⟩

/-- `a ≤ b` (cross-multiplied; denominators are positive). -/
def Q.le (a b : Q) : Bool := a.num * b.den ≤ b.num * a.den

/-- `a < b`. -/
def Q.lt (a b : Q) : Bool := a.num * b.den < b.num * a.den

/-- `a == 0.0`. -/
def Q.isZero (a : Q) : Bool := a.num = 0

/-- `f32::min`. -/
def Q.fmin (a b : Q) : Q := if a.le b then a else b

/-- `f32::clamp lo hi`. -/
def Q.clamp (a lo hi : Q) : Q := if a.lt lo then lo else if hi.lt a then hi else a

/-- `f32::round` as an integer: round half away from zero. -/
def Q.round (a : Q) : ℤ :=
  if 0 ≤ a.num then Int.fdiv (2 * a.num + a.den) (2 * a.den)
  else -Int.fdiv ((a.den : ℤ) - 2 * a.num) (2 * a.den)

/-- `state.rs` `round_currency`: `(value * 100.0).round() / 100.0`. -/
def Q.roundCurrency (value : Q) : Q := ⟨(value.mul (Q.ofNat 100)).round, 100⟩

/-- `model.rs` `TapType`. -/
inductive TapType where
  | TapIn
  | TapOut
deriving DecidableEq, Repr

/-- `model.rs` `TapMode`. -/
inductive TapMode where
  | SingleTap
  | TapInOut
deriving DecidableEq, Repr

/-- `model.rs` `FareType`. -/
inductive FareType where
  | Uniform
  | Segment
  | Distance
deriving DecidableEq, Repr

/-- `model.rs` `PassengerTone`. -/
inductive PassengerTone where
  | Normal
  | Student
  | Elder
  | Disabled
  | Error
deriving DecidableEq, Repr

/-- `model.rs` `GatewaySettings`. -/
structure GatewaySettings where
  gateway_id : String
  reader_id : Nat
  debounce_window_secs : Nat
  tap_cache_max : Nat
  config_ttl_secs : Nat
  blacklist_ttl_secs : Nat
  active_trip_ttl_secs : Nat
  batch_size : Nat
deriving DecidableEq, Repr

/-- `model.rs` `StationConfig`. -/
structure StationConfig where
  id : Nat
  name : String
  sequence : Nat
  zone_id : Option Nat
  is_transfer : Bool
deriving DecidableEq, Repr

/-- `model.rs` `FareRule`. -/
structure FareRule where
  base_price : Q
  fare_type : Option String
  segment_count : Option Nat
  extra_price : Option Q
  start_station : Option Nat
  end_station : Option Nat
deriving DecidableEq, Repr

/-- `model.rs` `RouteConfig`. -/
structure RouteConfig where
  route_id : Nat
  route_name : String
  fare_type : FareType
  tap_mode : TapMode
  max_fare : Option Q
  stations : List StationConfig
  fares : List FareRule
deriving DecidableEq, Repr

/-- `model.rs` `RouteConfig::standard_fare`: smallest positive base price. -/
def RouteConfig.standard_fare (cfg : RouteConfig) : Option Q :=
  cfg.fares.foldl
    (fun best fare =>
      if (fare.base_price).le (Q.ofNat 0) then best
      else
        match best with
        | some current => some (current.fmin fare.base_price)
        | none => some fare.base_price)
    none

/-- `model.rs` `TapEvent`. -/
structure TapEvent where
  record_id : String
  card_id : String
  route_id : Nat
  station_id : Nat
  station_name : String
  tap_type : TapType
  tap_time : Nat
  gateway_id : String
deriving DecidableEq, Repr

/-- `model.rs` `UploadRecord`. -/
structure UploadRecord where
  record_id : String
  card_id : String
  route_id : Option Nat
  board_time : String
  alight_time : Option String
  board_station_id : Option Nat
  board_station : Option String
  alight_station_id : Option Nat
  alight_station : Option String
  gateway_id : Option String
deriving DecidableEq, Repr

/-- `model.rs` `format_time`: epoch seconds as a decimal string. -/
def formatTime (epochSecs : Nat) : String := toString epochSecs

/-- `model.rs` `UploadRecord::from_tap_in`. -/
def UploadRecord.fromTapIn (event : TapEvent) : UploadRecord :=
  { record_id := event.record_id
    card_id := event.card_id
    route_id := some event.route_id
    board_time := formatTime event.tap_time
    alight_time := none
    board_station_id := some event.station_id
    board_station := some event.station_name
    alight_station_id := none
    alight_station := none
    gateway_id := some event.gateway_id }

/-- `model.rs` `UploadRecord::from_tap_out`. -/
def UploadRecord.fromTapOut (event : TapEvent) (board_time : Nat)
    (board_station_id : Option Nat) (board_station : Option String) :
    UploadRecord :=
  { record_id := event.record_id
    card_id := event.card_id
    route_id := some event.route_id
    board_time := formatTime board_time
    alight_time := some (formatTime event.tap_time)
    board_station_id := board_station_id
    board_station := board_station
    alight_station_id := some event.station_id
    alight_station := some event.station_name
    gateway_id := some event.gateway_id }

/-- `serial.rs` `CardDetected`. -/
structure CardDetected where
  card_id : String
  tap_time : Nat
  reader_id : Nat
  card_data : List Nat
deriving DecidableEq, Repr

/-- `serial.rs` `CardAck`. -/
structure CardAck where
  result : Nat
  beep_pattern : Nat
  display_code : Nat
  write_flag : Nat
  write_data : List Nat
deriving DecidableEq, Repr

/-- `serial.rs` `CardAck::accepted`. -/
def CardAck.accepted : CardAck :=
  { result := 1, beep_pattern := 1, display_code := 0, write_flag := 0
    write_data := [] }

/-- `serial.rs` `CardAck::rejected`. -/
def CardAck.rejected : CardAck :=
  { result := 0, beep_pattern := 2, display_code := 1, write_flag := 0
    write_data := [] }

/-- `serial.rs` `CardWriteRequest`. -/
structure CardWriteRequest where
  card_id : String
  card_data : List Nat
  block_start : Nat
  block_count : Nat
deriving DecidableEq, Repr

/-- `serial.rs` `CardWriteResult`. -/
structure CardWriteResult where
  result : Nat
  error_code : Nat
  block_start : Nat
  block_count : Nat
deriving DecidableEq, Repr

/-- `Vec::swap_remove`: remove index `i`, moving the last element into its
    place. -/
def swapRemove {α : Type} (l : List α) (i : Nat) : List α :=
  match l.getLast? with
  | none => l
  | some last => if i + 1 = l.length then l.dropLast else l.dropLast.set i last

/-- Index of the first element with minimal key (Rust
    `Iterator::min_by_key`). -/
def minIdxBy {α : Type} (key : α → Nat) (l : List α) : Option Nat :=
  (l.enum.foldl
    (fun best p =>
      match best with
      | none => some p
      | some q => if key p.2 < key q.2 then some p else some q)
    none).map (·.1)

/-- `cache.rs` `TapEventCache`. -/
structure TapEventCache where
  max_len : Nat
  events : List TapEvent
deriving DecidableEq, Repr

/-- `cache.rs` `TapEventCache::new`. -/
def TapEventCache.new (maxLen : Nat) : TapEventCache := ⟨maxLen, []⟩

/-- `cache.rs` `TapEventCache::is_full`. -/
def TapEventCache.isFull (c : TapEventCache) : Bool := c.events.length ≥ c.max_len

/-- `cache.rs` `TapEventCache::push` (returns the event back on overflow). -/
def TapEventCache.push (c : TapEventCache) (event : TapEvent) :
    TapEventCache × Except TapEvent Unit :=
  if c.isFull then (c, .error event)
  else ({ c with events := c.events ++ [event] }, .ok ())

/-- `cache.rs` `TapEventCache::drain_batch`. -/
def TapEventCache.drainBatch (c : TapEventCache) (limit : Nat) :
    TapEventCache × List TapEvent :=
  let take := min limit c.events.length
  ({ c with events := c.events.drop take }, c.events.take take)

/-- `cache.rs` `TapEventCache::clear`. -/
def TapEventCache.clear (c : TapEventCache) : TapEventCache :=
  { c with events := [] }

/-- `cache.rs` `ConfigCache`. -/
structure ConfigCache where
  route : Option RouteConfig
  fetched_at : Nat
  ttl_secs : Nat
deriving DecidableEq, Repr

/-- `cache.rs` `ConfigCache::new`. -/
def ConfigCache.new (ttlSecs : Nat) : ConfigCache := ⟨none, 0, ttlSecs⟩

/-- `cache.rs` `BlacklistCache`. -/
structure BlacklistCache where
  cards : List String
  fetched_at : Nat
  ttl_secs : Nat
deriving DecidableEq, Repr

/-- `cache.rs` `BlacklistCache::new`. -/
def BlacklistCache.new (ttlSecs : Nat) : BlacklistCache := ⟨[], 0, ttlSecs⟩

/-- `cache.rs` `BlacklistCache::is_blocked`. -/
def BlacklistCache.isBlocked (c : BlacklistCache) (cardId : String) : Bool :=
  c.cards.any (fun id => id = cardId)

/-- `cache.rs` `TapSeen`. -/
structure TapSeen where
  card_id : String
  last_seen : Nat
deriving DecidableEq, Repr

/-- `cache.rs` `TapDebounce`. -/
structure TapDebounce where
  window_secs : Nat
  max_len : Nat
  entries : List TapSeen
deriving DecidableEq, Repr

/-- `cache.rs` `TapDebounce::new`. -/
def TapDebounce.new (windowSecs maxLen : Nat) : TapDebounce :=
  ⟨windowSecs, maxLen, []⟩

/-- `cache.rs` `TapDebounce::purge_expired` (saturating subtraction is `Nat`
    subtraction). -/
def TapDebounce.purgeExpired (d : TapDebounce) (now : Nat) : TapDebounce :=
  { d with entries := d.entries.filter (fun e => now - e.last_seen ≤ d.window_secs) }

/-- Update the first entry for `cardId` in place (the effect of writing
    through `iter_mut().find`). -/
def setSeenFirst : List TapSeen → String → Nat → List TapSeen
  | [], _, _ => []
  | e :: rest, cardId, now =>
    if e.card_id = cardId then { e with last_seen := now } :: rest
    else e :: setSeenFirst rest cardId now

/-- `cache.rs` `TapDebounce::drop_oldest`. -/
def TapDebounce.dropOldest (d : TapDebounce) : TapDebounce :=
  match minIdxBy (fun e => e.last_seen) d.entries with
  | some idx => { d with entries := swapRemove d.entries idx }
  | none => d

/-- `cache.rs` `TapDebounce::allow`: purge expired entries, report a hit
    inside the window as disallowed, otherwise record the card. -/
def TapDebounce.allow (d : TapDebounce) (cardId : String) (now : Nat) :
    TapDebounce × Bool :=
  let d := d.purgeExpired now
  match d.entries.find? (fun e => e.card_id = cardId) with
  | some entry =>
    if now - entry.last_seen ≤ d.window_secs then (d, false)
    else ({ d with entries := setSeenFirst d.entries cardId now }, true)
  | none =>
    let d := if d.entries.length ≥ d.max_len then d.dropOldest else d
    ({ d with entries := d.entries ++ [⟨cardId, now⟩] }, true)

/-- `cache.rs` `ActiveTrip`. -/
structure ActiveTrip where
  card_id : String
  event : TapEvent
  last_seen : Nat
deriving DecidableEq, Repr

/-- `cache.rs` `ActiveTripCache`. -/
structure ActiveTripCache where
  ttl_secs : Nat
  entries : List ActiveTrip
deriving DecidableEq, Repr

/-- `cache.rs` `ActiveTripCache::new`. -/
def ActiveTripCache.new (ttlSecs : Nat) : ActiveTripCache := ⟨ttlSecs, []⟩

/-- `cache.rs` `ActiveTripCache::purge_expired`. -/
def ActiveTripCache.purgeExpired (c : ActiveTripCache) (now : Nat) :
    ActiveTripCache :=
  { c with entries := c.entries.filter (fun e => now - e.last_seen ≤ c.ttl_secs) }

/-- `cache.rs` `ActiveTripCache::insert`. -/
def ActiveTripCache.insert (c : ActiveTripCache) (event : TapEvent) (now : Nat) :
    ActiveTripCache :=
  let c := c.purgeExpired now
  let c := { c with entries := c.entries.filter (fun e => ¬e.card_id = event.card_id) }
  { c with entries := c.entries ++ [⟨event.card_id, event, now⟩] }

/-- `cache.rs` `ActiveTripCache::take`. -/
def ActiveTripCache.take (c : ActiveTripCache) (cardId : String) (now : Nat) :
    ActiveTripCache × Option TapEvent :=
  let c := c.purgeExpired now
  match c.entries.findIdx? (fun e => e.card_id = cardId) with
  | some pos =>
    ({ c with entries := swapRemove c.entries pos },
      (c.entries.get? pos).map (·.event))
  | none => (c, none)

/-- The pending trip stored for a card id. -/
def ActiveTripCache.lookup (c : ActiveTripCache) (cardId : String) :
    Option TapEvent :=
  (c.entries.find? (fun e => e.card_id = cardId)).map (·.event)

/-- `state.rs` `CARD_CACHE_TTL_MS` (10 minutes). -/
def CARD_CACHE_TTL_MS : Nat := 600000

/-- `state.rs` `RECHARGE_MODE_TTL_MS`. -/
def RECHARGE_MODE_TTL_MS : Nat := 60000

/-- `state.rs` `REGISTER_MODE_TTL_MS`. -/
def REGISTER_MODE_TTL_MS : Nat := 60000

/-- `state.rs` `PASSENGER_MSG_TTL_OK_MS`. -/
def PASSENGER_MSG_TTL_OK_MS : Nat := 2000

/-- `state.rs` `PASSENGER_MSG_TTL_ACTION_MS`. -/
def PASSENGER_MSG_TTL_ACTION_MS : Nat := 3000

/-- `state.rs` `PASSENGER_MSG_TTL_ERROR_MS`. -/
def PASSENGER_MSG_TTL_ERROR_MS : Nat := 3000

/-- `state.rs` `DEFAULT_REGISTER_BALANCE_CENTS`. -/
def DEFAULT_REGISTER_BALANCE_CENTS : Nat := 0

/-- `state.rs` `MAX_RECHARGE_CENTS`. -/
def MAX_RECHARGE_CENTS : Nat := 20000

/-- `state.rs` `WriteContext`. -/
inductive WriteContext where
  | TapIn
  | TapOut
  | Recharge
  | Register
  | Blacklist
deriving DecidableEq, Repr

/-- `state.rs` `RechargeMode`. -/
structure RechargeMode where
  amount_cents : Nat
  expires_at_ms : Nat
deriving DecidableEq, Repr

/-- `state.rs` `RegisterMode`. -/
structure RegisterMode where
  expires_at_ms : Nat
deriving DecidableEq, Repr

/-- `state.rs` `CachedCardProfile`. -/
structure CachedCardProfile where
  card_type : Option String
  status : Option String
  discount_rate : Option Q
  discount_amount : Option Q
  balance_cents : Option Nat
  updated_at_ms : Nat
deriving DecidableEq, Repr

/-- `state.rs` `RouteState`. -/
structure RouteState where
  route_id : Nat
  station_id : Nat
  station_name : String
  direction : Direction
deriving DecidableEq, Repr

/-- `CardStateSnapshot` (struct imported from `model` but absent from the
    sources; its fields are fixed by the construction in `state.rs`
    `push_card_snapshot`). -/
structure CardStateSnapshot where
  card_id : String
  balance_cents : Nat
  card_status : String
  entry_station_id : Option Nat
  last_route_id : Option Nat
  last_direction : Option String
  last_board_station_id : Option Nat
  last_alight_station_id : Option Nat
  updated_at : Nat
  source : String
deriving DecidableEq, Repr

/-- `CardRegistration` (struct imported from `model` but absent from the
    sources; its fields are fixed by the construction in `state.rs`
    `handle_register`). -/
structure CardRegistration where
  card_id : String
  balance_cents : Nat
  status : String
  registered_at : Nat
  gateway_id : String
deriving DecidableEq, Repr

/-- Modelled from the spec: `CardStateSnapshotCache` is imported from
    `cache` in `state.rs` but absent from the sources; the spec describes it
    as a "bounded FIFO of post-write snapshots destined for the backend"
    that, like the event buffer, rejects on overflow. -/
structure CardStateSnapshotCache where
  max_len : Nat
  snapshots : List CardStateSnapshot
deriving DecidableEq, Repr

/-- Modelled from the spec: construct the bounded snapshot FIFO. -/
def CardStateSnapshotCache.new (maxLen : Nat) : CardStateSnapshotCache :=
  ⟨maxLen, []⟩

/-- Modelled from the spec: bounded FIFO push, rejecting on overflow. -/
def CardStateSnapshotCache.push (c : CardStateSnapshotCache)
    (snapshot : CardStateSnapshot) :
    CardStateSnapshotCache × Except CardStateSnapshot Unit :=
  if c.snapshots.length ≥ c.max_len then (c, .error snapshot)
  else ({ c with snapshots := c.snapshots ++ [snapshot] }, .ok ())

/-- Modelled from the spec: FIFO drain of up to `limit` snapshots. -/
def CardStateSnapshotCache.drainBatch (c : CardStateSnapshotCache)
    (limit : Nat) : CardStateSnapshotCache × List CardStateSnapshot :=
  let take := min limit c.snapshots.length
  ({ c with snapshots := c.snapshots.drop take }, c.snapshots.take take)

/-- `state.rs` `GatewayState`. -/
structure GatewayState where
  settings : GatewaySettings
  route_state : RouteState
  config_cache : ConfigCache
  blacklist_cache : BlacklistCache
  tap_cache : TapEventCache
  debounce : TapDebounce
  active_trips : ActiveTripCache
  wifi_connected : Bool
  backend_reachable : Bool
  backend_base_url : String
  last_card_id : String
  last_card_data_len : Nat
  last_card_data_prefix_hex : Option String
  last_card_data_error : Option String
  last_tap_nonce : Nat
  last_message_deadline_ms : Nat
  last_passenger_tone : PassengerTone
  last_passenger_message : String
  last_fare_base : Option Q
  last_fare : Option Q
  last_fare_label : String
  last_balance_cents : Option Nat
  last_tap_type : Option TapType
  card_cache : List (String × CachedCardProfile)
  card_state_cache : CardStateSnapshotCache
  recharge_mode : Option RechargeMode
  register_mode : Option RegisterMode
  last_write_context : Option WriteContext
  last_written_balance_cents : Option Nat
  record_seq : Nat
deriving DecidableEq, Repr

/-- `state.rs` `Decision`. -/
structure Decision where
  ack : CardAck
  event : Option TapEvent
  upload_record : Option UploadRecord
  write_request : Option CardWriteRequest
  registration : Option CardRegistration
deriving DecidableEq, Repr

/-- `state.rs` `hex_prefix` digit table lookup. -/
def hexDigit (n : Nat) : Char := "0123456789ABCDEF".data.getD n '0'

/-- `state.rs` `hex_prefix`: uppercase hex of the first `maxLen` bytes. -/
def hexHead (bytes : List Nat) (maxLen : Nat) : String :=
  String.mk
    ((bytes.take maxLen).foldr
      (fun b acc => hexDigit (b / 16 % 16) :: hexDigit (b % 16) :: acc) [])

/-- `state.rs` `GatewayState::refresh_modes`: lazily expire recharge and
    register modes. -/
def GatewayState.refreshModes (s : GatewayState) (nowMs : Nat) : GatewayState :=
  let s :=
    match s.recharge_mode with
    | some mode => if nowMs ≥ mode.expires_at_ms then { s with recharge_mode := none } else s
    | none => s
  match s.register_mode with
  | some mode => if nowMs ≥ mode.expires_at_ms then { s with register_mode := none } else s
  | none => s

/-- `state.rs` `GatewayState::set_recharge_mode`: only amounts in
    `1..=MAX_RECHARGE_CENTS` activate recharge mode (and clear register
    mode). -/
def GatewayState.setRechargeMode (s : GatewayState) (amountCents nowMs : Nat) :
    GatewayState :=
  if amountCents = 0 ∨ amountCents > MAX_RECHARGE_CENTS then s
  else
    { s with
        register_mode := none
        recharge_mode :=
          some ⟨amountCents, satAdd64 nowMs RECHARGE_MODE_TTL_MS⟩ }

/-- `state.rs` `GatewayState::clear_recharge_mode`. -/
def GatewayState.clearRechargeMode (s : GatewayState) : GatewayState :=
  { s with recharge_mode := none }

/-- `state.rs` `GatewayState::set_register_mode`. -/
def GatewayState.setRegisterMode (s : GatewayState) (nowMs : Nat) : GatewayState :=
  { s with
      recharge_mode := none
      register_mode := some ⟨satAdd64 nowMs REGISTER_MODE_TTL_MS⟩ }

/-- `state.rs` `GatewayState::clear_register_mode`. -/
def GatewayState.clearRegisterMode (s : GatewayState) : GatewayState :=
  { s with register_mode := none }

/-- `state.rs` `GatewayState::cached_profile`: profile from the card cache
    unless older than the 10-minute TTL. -/
def GatewayState.cachedProfile (s : GatewayState) (cardId : String)
    (nowMs : Nat) : Option CachedCardProfile :=
  match (s.card_cache.find? (fun p => p.1 = cardId)).map (·.2) with
  | none => none
  | some profile =>
    if nowMs - profile.updated_at_ms > CARD_CACHE_TTL_MS then none
    else some profile

/-- `state.rs` `GatewayState::standard_fare`. -/
def GatewayState.standardFare (s : GatewayState) : Option Q :=
  (s.config_cache.route.bind RouteConfig.standard_fare).map Q.roundCurrency

/-- `state.rs` `GatewayState::estimate_trip_fare`. -/
def GatewayState.estimateTripFare (s : GatewayState)
    (startStationId endStationId : Nat) : Option Q :=
  match s.config_cache.route with
  | none => none
  | some cfg =>
    if startStationId = 0 ∨ endStationId = 0 then
      cfg.standard_fare.map Q.roundCurrency
    else
      let exact :=
        match cfg.fares.find? (fun fare =>
            fare.start_station = some startStationId ∧
              fare.end_station = some endStationId) with
        | some rule =>
          if (Q.ofNat 0).lt rule.base_price then
            some rule.base_price.roundCurrency
          else none
        | none => none
      match exact with
      | some v => some v
      | none =>
        match cfg.fare_type with
        | .Uniform => cfg.standard_fare.map Q.roundCurrency
        | _ =>
          match (cfg.stations.find? (fun st => st.id = startStationId)).map (·.sequence) with
          | none => none
          | some startSeq =>
            match (cfg.stations.find? (fun st => st.id = endStationId)).map (·.sequence) with
            | none => none
            | some endSeq =>
              let diff := if startSeq ≥ endSeq then startSeq - endSeq else endSeq - startSeq
              let baseRule := cfg.fares.find? (fun fare =>
                fare.start_station.getD 0 = 0 ∧ fare.end_station.getD 0 = 0)
              let basePrice := (baseRule.map (·.base_price)).getD (Q.ofNat 0)
              if basePrice.le (Q.ofNat 0) then cfg.standard_fare.map Q.roundCurrency
              else
                let extra := (baseRule.bind (·.extra_price)).getD (Q.ofNat 0)
                let included := (baseRule.bind (·.segment_count)).getD 1
                if diff ≤ included ∨ extra.le (Q.ofNat 0) then
                  some basePrice.roundCurrency
                else
                  let extraSegments := diff - included
                  some ((basePrice.add (extra.mul (Q.ofNat extraSegments))).roundCurrency)

/-- The tap mode from the cached route config, defaulting to single-tap
    (the expression `state.rs` repeats at lines 433-438 and 833-838). -/
def GatewayState.tapModeOf (s : GatewayState) : TapMode :=
  (s.config_cache.route.map (·.tap_mode)).getD .SingleTap

/-- `state.rs` `GatewayState::discount_label`. -/
def GatewayState.discountLabel (s : GatewayState) : String :=
  let tapMode := s.tapModeOf
  if tapMode = .TapInOut then
    match s.last_tap_type with
    | some .TapIn => "优惠起步价"
    | some .TapOut => "优惠结算价"
    | none => "优惠票价"
  else "优惠票价"

/-- The default per-type discount table of `state.rs`
    `apply_card_discount` (lines 777-782): student 50% off, elder and
    disabled free; anything else no default discount. -/
def defaultDiscountFor (cardType : String) : Option (Q × String) :=
  match cardType with
  | "student" => some (⟨1, 2⟩, "学生优惠")
  | "elder" => some (⟨1, 1⟩, "长者免费")
  | "disabled" => some (⟨1, 1⟩, "残障免费")
  | _ => none

/-- `state.rs` `GatewayState::apply_card_discount`: default discount by card
    type (student 50% off, elder/disabled free). -/
def GatewayState.applyCardDiscount (s : GatewayState) (cardType : String) :
    GatewayState :=
  match optOr s.last_fare_base s.last_fare with
  | none => s
  | some base =>
    let cardType := cardType.trim.toLower
    match defaultDiscountFor cardType with
    | none => s
    | some (discountRate, _) =>
      let discountRate := discountRate.clamp (Q.ofNat 0) (Q.ofNat 1)
      let value := base.mul ((Q.ofNat 1).sub discountRate)
      let discounted := value.roundCurrency
      { s with last_fare := some discounted, last_fare_label := s.discountLabel }

/-- `state.rs` `GatewayState::apply_card_discount_policy`: backend-supplied
    discount amount/rate takes priority; otherwise fall back to the default
    per-type discount. -/
def GatewayState.applyCardDiscountPolicy (s : GatewayState) (cardType : String)
    (discountRate discountAmount : Option Q) : GatewayState :=
  match optOr s.last_fare_base s.last_fare with
  | none => s
  | some base =>
    let cardType := cardType.trim.toLower
    let hasPolicy := discountRate.isSome || discountAmount.isSome
    let discount : Q := Q.ofNat 0
    let discount :=
      match discountAmount with
      | some amount => if (Q.ofNat 0).lt amount then amount else discount
      | none => discount
    let discount :=
      if discount.isZero then
        match discountRate with
        | some rate =>
          if (Q.ofNat 0).le rate then
            base.mul (rate.clamp (Q.ofNat 0) (Q.ofNat 1))
          else discount
        | none => discount
      else discount
    if discount.isZero ∧ ¬hasPolicy then s.applyCardDiscount cardType
    else
      let discount := if base.lt discount then base else discount
      let value := base.sub discount
      { s with
          last_fare := some value.roundCurrency
          last_fare_label := s.discountLabel }

/-- `state.rs` `GatewayState::apply_cached_profile`: apply tone and discount
    policy from a fresh cached profile; blocked/lost statuses set an error
    tone and clear the fares. -/
def GatewayState.applyCachedProfile (s : GatewayState) (cardId : String)
    (nowMs : Nat) : GatewayState :=
  match (s.card_cache.find? (fun p => p.1 = cardId)).map (·.2) with
  | none => s
  | some profile =>
    if nowMs - profile.updated_at_ms > CARD_CACHE_TTL_MS then s
    else
      let applyType := fun (s : GatewayState) =>
        match profile.card_type with
        | none => s
        | some cardType =>
          let s :=
            match cardType with
            | "student" => { s with last_passenger_tone := .Student }
            | "elder" => { s with last_passenger_tone := .Elder }
            | "disabled" => { s with last_passenger_tone := .Disabled }
            | _ => s
          s.applyCardDiscountPolicy cardType profile.discount_rate
            profile.discount_amount
      match profile.status with
      | some status =>
        if status = "blocked" then
          { s with
              last_passenger_tone := .Error
              last_passenger_message := "卡已冻结"
              last_fare_base := none
              last_fare := none }
        else if status = "lost" then
          { s with
              last_passenger_tone := .Error
              last_passenger_message := "卡已挂失"
              last_fare_base := none
              last_fare := none }
        else applyType s
      | none => applyType s

/-- `state.rs` `GatewayState::fare_to_cents`: the displayed fare in cents
    (`(fare * 100.0).round().max(0.0) as u32`, saturating cast). -/
def GatewayState.fareToCents (s : GatewayState) : Nat :=
  match optOr s.last_fare s.last_fare_base with
  | some fare => min (max ((fare.mul (Q.ofNat 100)).round) 0).toNat u32Max
  | none => 0

/-- `state.rs` `GatewayState::apply_balance`: deduct the fare unless the
    balance is insufficient; a zero fare always succeeds and deducts
    nothing. -/
def applyBalance (cardData : CardData) (fareCents : Nat) : CardData × Bool :=
  if fareCents = 0 then (cardData, true)
  else if cardData.balance_cents < fareCents then (cardData, false)
  else ({ cardData with balance_cents := cardData.balance_cents - fareCents }, true)

/-- `state.rs` `GatewayState::update_last_trip`. -/
def GatewayState.updateLastTrip (s : GatewayState) (cardData : CardData)
    (boardStationId alightStationId : Option Nat) : CardData :=
  { cardData with
      last_route_id := some s.route_state.route_id
      last_direction := some s.route_state.direction
      last_board_station_id := boardStationId
      last_alight_station_id := alightStationId }

/-- `state.rs` `GatewayState::build_write_request`: remember the write
    context and the intended new balance, and serialise the card into the
    2-block write request. -/
def GatewayState.buildWriteRequest (s : GatewayState) (cardId : String)
    (cardData : CardData) (context : WriteContext) :
    GatewayState × CardWriteRequest :=
  let s :=
    { s with
        last_write_context := some context
        last_written_balance_cents := some cardData.balance_cents }
  (s,
    { card_id := cardId
      card_data := cardData.toBytes
      block_start := CARD_DATA_BLOCK_START
      block_count := CARD_DATA_BLOCK_COUNT })

/-- `state.rs` `GatewayState::push_card_snapshot`. -/
def GatewayState.pushCardSnapshot (s : GatewayState) (cardId : String)
    (cardData : CardData) (source : String) (nowMs : Nat) : GatewayState :=
  let snapshot : CardStateSnapshot :=
    { card_id := cardId
      balance_cents := cardData.balance_cents
      card_status := cardData.status.asStr
      entry_station_id := cardData.entry_station_id
      last_route_id := cardData.last_route_id
      last_direction := cardData.last_direction.map Direction.asStr
      last_board_station_id := cardData.last_board_station_id
      last_alight_station_id := cardData.last_alight_station_id
      updated_at := nowMs
      source := source }
  { s with card_state_cache := (s.card_state_cache.push snapshot).1 }

/-- `state.rs` `GatewayState::reject_with_write`: error tone and message,
    cleared fares, rejected ACK carrying an optional write request. -/
def GatewayState.rejectWithWrite (s : GatewayState) (message : String)
    (writeRequest : Option CardWriteRequest) (nowMs : Nat) :
    GatewayState × Decision :=
  let s :=
    { s with
        last_passenger_tone := .Error
        last_passenger_message := message
        last_fare_base := none
        last_fare := none
        last_message_deadline_ms := satAdd64 nowMs PASSENGER_MSG_TTL_ERROR_MS }
  (s,
    { ack := .rejected
      event := none
      upload_record := none
      write_request := writeRequest
      registration := none })

/-- `state.rs` `GatewayState::reject_card`. -/
def GatewayState.rejectCard (s : GatewayState) (message : String) (nowMs : Nat) :
    GatewayState × Decision :=
  s.rejectWithWrite message none nowMs

/-- `state.rs` `GatewayState::reject_blacklisted`: reject, and if the card
    parsed and is not already blocked on chip, write the blocked status
    back. -/
def GatewayState.rejectBlacklisted (s : GatewayState) (cardId : String)
    (cardData : Option CardData) (nowMs : Nat) : GatewayState × Decision :=
  let p : GatewayState × Option CardWriteRequest :=
    match cardData with
    | some data =>
      if data.status ≠ .Blocked then
        let data := { data with status := CardStatus.Blocked, entry_station_id := none }
        let (s, wr) := s.buildWriteRequest cardId data .Blacklist
        let s := s.pushCardSnapshot cardId data "blacklist" nowMs
        (s, some wr)
      else (s, none)
    | none => (s, none)
  p.1.rejectWithWrite "卡已冻结" p.2 nowMs

/-- `state.rs` `GatewayState::next_record_id`. -/
def GatewayState.nextRecordId (s : GatewayState) (now : Nat) :
    GatewayState × String :=
  let seq := s.record_seq
  let s := { s with record_seq := wrapAdd32 s.record_seq 1 }
  (s, s.settings.gateway_id ++ "-" ++ toString now ++ "-" ++ toString seq)

/-- `state.rs` `handle_register` (lines 553-592): require a decodable UID and
    a card without parseable data, then build a blank idle card, a write
    request and a registration payload. -/
def GatewayState.handleRegister (s : GatewayState) (cardId : String)
    (uid : Option Uid4) (cardData : Option CardData) (nowMs : Nat) :
    GatewayState × Decision :=
  match uid with
  | none => s.rejectCard "卡号异常" nowMs
  | some uid =>
    if cardData.isSome then s.rejectCard "卡已注册" nowMs
    else
      let newData :=
        { CardData.new uid with
            balance_cents := DEFAULT_REGISTER_BALANCE_CENTS
            status := CardStatus.Idle }
      let bw := s.buildWriteRequest cardId newData .Register
      let s := bw.1
      let registration : CardRegistration :=
        { card_id := cardId
          balance_cents := newData.balance_cents
          status := "active"
          registered_at := nowMs
          gateway_id := s.settings.gateway_id }
      let s := s.pushCardSnapshot cardId newData "register" nowMs
      let s :=
        { s with
            last_balance_cents := none
            last_passenger_tone := PassengerTone.Normal
            last_passenger_message := "注册成功"
            last_message_deadline_ms := satAdd64 nowMs PASSENGER_MSG_TTL_ACTION_MS }
      (s,
        { ack := .accepted
          event := none
          upload_record := none
          write_request := some bw.2
          registration := some registration })

/-- A blank card completed from a cached backend profile's balance
    (`state.rs` lines 421-425 and 621-625). -/
def profileCardData (uid : Uid4) (profile : CachedCardProfile) : CardData :=
  let data := CardData.new uid
  match profile.balance_cents with
  | some balanceCents => { data with balance_cents := balanceCents }
  | none => data

/-- The card-data fallback of `state.rs` `handle_recharge` (lines 603-627):
    an unparseable card may be completed from a fresh cached backend profile
    unless that profile is blocked or lost. -/
def GatewayState.rechargeResolveCard (s : GatewayState) (cardId : String)
    (cardData : Option CardData) (nowMs : Nat) : Except String CardData :=
  match cardData with
  | some data => .ok data
  | none =>
    match decodeUidHex cardId with
    | none => .error "卡未注册"
    | some uid =>
      match s.cachedProfile cardId nowMs with
      | none => .error "卡未注册"
      | some profile =>
        match profile.status with
        | some status =>
          if status = "blocked" then .error "卡已冻结"
          else if status = "lost" then .error "卡已挂失"
          else .ok (profileCardData uid profile)
        | none => .ok (profileCardData uid profile)

/-- `state.rs` `handle_recharge` (lines 594-647): resolve the card, require
    idle status, credit the amount with saturating addition and emit the
    write request. -/
def GatewayState.handleRecharge (s : GatewayState) (cardId : String)
    (cardData : Option CardData) (nowMs : Nat) : GatewayState × Decision :=
  match s.recharge_mode with
  | none => s.rejectCard "充值模式已结束" nowMs
  | some mode =>
    match s.rechargeResolveCard cardId cardData nowMs with
    | .error message => s.rejectCard message nowMs
    | .ok cardData =>
      let s := { s with last_balance_cents := some cardData.balance_cents }
      if cardData.status ≠ CardStatus.Idle then s.rejectCard "卡状态异常" nowMs
      else
        let cardData :=
          { cardData with
              balance_cents := satAdd32 cardData.balance_cents mode.amount_cents }
        let bw := s.buildWriteRequest cardId cardData .Recharge
        let s := bw.1.pushCardSnapshot cardId cardData "recharge" nowMs
        let s :=
          { s with
              last_passenger_tone := PassengerTone.Normal
              last_passenger_message := "充值成功"
              last_message_deadline_ms := satAdd64 nowMs PASSENGER_MSG_TTL_ACTION_MS }
        (s,
          { ack := .accepted
            event := none
            upload_record := none
            write_request := some bw.2
            registration := none })

/-- The card-data fallback of the normal tap path (`state.rs` lines 402-427):
    an unparseable card may be completed from a fresh cached backend profile
    unless that profile is blocked or lost. -/
def GatewayState.tapResolveCard (s : GatewayState) (cardId : String)
    (uid : Option Uid4) (cardData : Option CardData) (nowMs : Nat) :
    Except String CardData :=
  match cardData with
  | some data => .ok data
  | none =>
    match uid with
    | none => .error "卡未注册"
    | some uid =>
      match s.cachedProfile cardId nowMs with
      | none => .error "卡未注册"
      | some profile =>
        match profile.status with
        | some status =>
          if status = "blocked" then .error "卡已冻结"
          else if status = "lost" then .error "卡已挂失"
          else .ok (profileCardData uid profile)
        | none => .ok (profileCardData uid profile)

/-- The tail of every accepted tap (`state.rs` lines 537-551): record the tap
    type, choose the passenger message, set the deadline and return the
    accepted decision. -/
def GatewayState.finishTap (s : GatewayState) (event : TapEvent)
    (uploadRecord : Option UploadRecord) (writeRequest : Option CardWriteRequest)
    (tapType : TapType) (nowMs : Nat) : GatewayState × Decision :=
  let s := { s with last_tap_type := some tapType }
  let s :=
    if s.last_passenger_tone ≠ PassengerTone.Error then
      { s with last_passenger_message := "刷卡成功" }
    else s
  let s := { s with last_message_deadline_ms := satAdd64 nowMs PASSENGER_MSG_TTL_OK_MS }
  (s,
    { ack := .accepted
      event := some event
      upload_record := uploadRecord
      write_request := writeRequest
      registration := none })

/-- Store a new active-trip cache (`self.active_trips = ...`). -/
def GatewayState.setActiveTrips (s : GatewayState) (trips : ActiveTripCache) :
    GatewayState :=
  { s with active_trips := trips }

/-- `self.last_passenger_tone = PassengerTone::Normal` (`state.rs` line 467). -/
def GatewayState.setNormalTone (s : GatewayState) : GatewayState :=
  { s with last_passenger_tone := .Normal }

/-- Store a fare into both displayed fare fields (`self.last_fare_base = ...;
    self.last_fare = ...`). -/
def GatewayState.setFares (s : GatewayState) (fare : Option Q) : GatewayState :=
  { s with last_fare_base := fare, last_fare := fare }

/-- Store a fare into both displayed fare fields together with the display
    label. -/
def GatewayState.setFareDisplay (s : GatewayState) (fare : Option Q)
    (label : String) : GatewayState :=
  { s with last_fare_base := fare, last_fare := fare, last_fare_label := label }

/-- `self.last_fare_label = ...`. -/
def GatewayState.setFareLabel (s : GatewayState) (label : String) : GatewayState :=
  { s with last_fare_label := label }

/-- The `SingleTap` arm of the normal tap path (`state.rs` lines 470-497):
    standard fare with the cached profile applied, balance deduction and the
    idle-card write request. -/
def GatewayState.tapSingleArm (s : GatewayState) (cardId : String)
    (cardData : CardData) (standardFare : Option Q) (event : TapEvent)
    (nowMs : Nat) : GatewayState × Decision :=
  let uploadRecord := some (UploadRecord.fromTapIn event)
  let s := s.setFareDisplay standardFare "应付"
  let s := s.applyCachedProfile cardId nowMs
  let fareCents := s.fareToCents
  let ab := applyBalance cardData fareCents
  if ¬ab.2 then s.rejectCard "余额不足" nowMs
  else
    let cardData := s.updateLastTrip ab.1 none (some event.station_id)
    let cardData :=
      { cardData with status := CardStatus.Idle, entry_station_id := none }
    let bw := s.buildWriteRequest cardId cardData .TapIn
    let s := bw.1.pushCardSnapshot cardId cardData "tap_in" nowMs
    s.finishTap event uploadRecord (some bw.2) .TapIn nowMs

/-- The `TapInOut` boarding arm of the normal tap path (`state.rs`
    lines 499-507): record the trip, display the boarding fare and write the
    in-trip card; no deduction happens here. -/
def GatewayState.tapInOutInArm (s : GatewayState) (cardId : String)
    (cardData : CardData) (standardFare : Option Q) (event : TapEvent)
    (now nowMs : Nat) : GatewayState × Decision :=
  let s := s.setActiveTrips (s.active_trips.insert event now)
  let uploadRecord := some (UploadRecord.fromTapIn event)
  let fare := s.estimateTripFare event.station_id event.station_id
  let s := s.setFareDisplay (optOr fare standardFare) "起步价"
  let s := s.applyCachedProfile cardId nowMs
  let cardData :=
    { cardData with
        status := CardStatus.InTrip
        entry_station_id := some event.station_id }
  let bw := s.buildWriteRequest cardId cardData .TapIn
  let s := bw.1.pushCardSnapshot cardId cardData "tap_in" nowMs
  s.finishTap event uploadRecord (some bw.2) .TapIn nowMs

/-- The `TapInOut` alighting arm of the normal tap path (`state.rs`
    lines 509-535): settle the trip fare, deduct, and on an insufficient
    balance re-insert the pending boarding event and reject. -/
def GatewayState.tapOutArm (s : GatewayState) (cardId : String)
    (cardData : CardData) (standardFare : Option Q)
    (removedTrip boardEvent : Option TapEvent) (event : TapEvent)
    (now nowMs : Nat) : GatewayState × Decision :=
  let p : Option UploadRecord × GatewayState :=
    match boardEvent with
    | some board =>
      (some (UploadRecord.fromTapOut event board.tap_time
          (some board.station_id) (some board.station_name)),
        s.setFares
          (optOr (s.estimateTripFare board.station_id event.station_id)
            standardFare))
    | none => (none, s.setFares standardFare)
  let uploadRecord := p.1
  let s := p.2.setFareLabel "结算价"
  let s := s.applyCachedProfile cardId nowMs
  let fareCents := s.fareToCents
  let ab := applyBalance cardData fareCents
  if ¬ab.2 then
    let s :=
      match removedTrip with
      | some prev => s.setActiveTrips (s.active_trips.insert prev now)
      | none => s
    s.rejectCard "余额不足" nowMs
  else
    let boardStation := boardEvent.map (·.station_id)
    let cardData := s.updateLastTrip ab.1 boardStation (some event.station_id)
    let cardData :=
      { cardData with status := CardStatus.Idle, entry_station_id := none }
    let bw := s.buildWriteRequest cardId cardData .TapOut
    let s := bw.1.pushCardSnapshot cardId cardData "tap_out" nowMs
    s.finishTap event uploadRecord (some bw.2) .TapOut nowMs

/-- The normal tap path of `state.rs` `handle_card_detected`
    (lines 429-551): on-card blocked check, tap-mode dispatch, fare
    computation, balance deduction and write-request construction. -/
def GatewayState.tapPath (s : GatewayState) (cardId : String)
    (cardData : CardData) (tapTime now nowMs : Nat) : GatewayState × Decision :=
  if cardData.status = CardStatus.Blocked then s.rejectCard "卡已冻结" nowMs
  else
    let tapMode := s.tapModeOf
    let takeResult : ActiveTripCache × Option TapEvent :=
      match tapMode with
      | .SingleTap => (s.active_trips, none)
      | .TapInOut => s.active_trips.take cardId now
    let s := s.setActiveTrips takeResult.1
    let removedTrip := takeResult.2
    let boardEvent := takeResult.2
    let tapType : TapType :=
      match tapMode with
      | .SingleTap => .TapIn
      | .TapInOut => if takeResult.2.isSome then .TapOut else .TapIn
    let nr := s.nextRecordId now
    let s := nr.1
    let event : TapEvent :=
      { record_id := nr.2
        card_id := cardId
        route_id := s.route_state.route_id
        station_id := s.route_state.station_id
        station_name := s.route_state.station_name
        tap_type := tapType
        tap_time := tapTime
        gateway_id := s.settings.gateway_id }
    let s := s.setNormalTone
    let standardFare := s.standardFare
    match tapMode, tapType with
    | .SingleTap, .TapIn =>
      s.tapSingleArm cardId cardData standardFare event nowMs
    | .TapInOut, .TapIn =>
      s.tapInOutInArm cardId cardData standardFare event now nowMs
    | .TapInOut, .TapOut =>
      s.tapOutArm cardId cardData standardFare removedTrip boardEvent event now nowMs
    | .SingleTap, .TapOut =>
      s.finishTap event none none tapType nowMs

/-- The card-data parse block of `state.rs` `handle_card_detected`
    (lines 367-385): parse when at least 32 bytes, then discard the parse on
    a UID mismatch; the second component is the recorded diagnostic. -/
def parseCardBlock (cardBytes : List Nat) (uid : Option Uid4) :
    Option CardData × Option String :=
  let parsed : Option CardData × Option String :=
    if CARD_DATA_LEN ≤ cardBytes.length then
      match CardData.fromBytesVerbose cardBytes with
      | .ok data => (some data, none)
      | .error err => (none, some err.asStr)
    else (none, some "short_card_data")
  match uid, parsed.1 with
  | some uid, some data =>
    if data.uid ≠ uid then (none, some "uid_mismatch") else parsed
  | _, _ => parsed

/-- The prelude of `state.rs` `handle_card_detected` (lines 350-363): mode
    expiry, nonce bump, tap diagnostics and the debounce filter; the second
    component is the debounce verdict. -/
def GatewayState.tapPrelude (s : GatewayState) (detected : CardDetected)
    (now nowMs : Nat) : GatewayState × Bool :=
  let s := s.refreshModes nowMs
  let s := { s with last_tap_nonce := wrapAdd32 s.last_tap_nonce 1 }
  let s :=
    { s with
        last_card_id := detected.card_id
        last_card_data_len := detected.card_data.length
        last_card_data_prefix_hex :=
          if detected.card_data = [] then none
          else some (hexHead detected.card_data 16)
        last_card_data_error := none }
  let allowResult := s.debounce.allow detected.card_id now
  ({ s with debounce := allowResult.1 }, allowResult.2)

/-- Record the parse diagnostic and the displayed balance read from the card
    (`state.rs` lines 361-388). -/
def GatewayState.noteCardData (s : GatewayState) (cardData : Option CardData)
    (err : Option String) : GatewayState :=
  { s with
      last_card_data_error := err
      last_balance_cents :=
        match cardData with
        | some data => some data.balance_cents
        | none => none }

/-- `state.rs` `GatewayState::handle_card_detected` (lines 349-551).  `now`
    is the caller-provided epoch-seconds, `nowMs` stands for the
    `current_epoch_millis()` system-clock read. -/
def GatewayState.handleCardDetected (s : GatewayState) (detected : CardDetected)
    (now nowMs : Nat) : GatewayState × Decision :=
  let p := s.tapPrelude detected now nowMs
  if ¬p.2 then p.1.rejectCard "刷卡过快" nowMs
  else
    let uid := decodeUidHex detected.card_id
    let parsed : Option CardData × Option String :=
      parseCardBlock detected.card_data uid
    let s := p.1.noteCardData parsed.1 parsed.2
    if s.blacklist_cache.isBlocked detected.card_id then
      s.rejectBlacklisted detected.card_id parsed.1 nowMs
    else if s.register_mode.isSome then
      s.handleRegister detected.card_id uid parsed.1 nowMs
    else if s.recharge_mode.isSome then
      s.handleRecharge detected.card_id parsed.1 nowMs
    else
      match s.tapResolveCard detected.card_id uid parsed.1 nowMs with
      | .error message => s.rejectCard message nowMs
      | .ok cardData => s.tapPath detected.card_id cardData detected.tap_time now nowMs

/-- The fare in cents that the single-tap path of `handle_card_detected`
    charges (`state.rs` lines 474-478: standard fare into both fare fields,
    cached profile applied, then `fare_to_cents`). -/
def GatewayState.singleTapFareCents (s : GatewayState) (cardId : String)
    (nowMs : Nat) : Nat :=
  ((s.setFareDisplay s.standardFare "应付").applyCachedProfile
    cardId nowMs).fareToCents

/-- The fare in cents that the tap-out path of `handle_card_detected`
    charges (`state.rs` lines 509-520: estimated trip fare from the boarding
    station to the current station into both fare fields, cached profile
    applied, then `fare_to_cents`). -/
def GatewayState.tapOutFareCents (s : GatewayState) (cardId : String)
    (boardStationId : Nat) (nowMs : Nat) : Nat :=
  (((s.setFares
        (optOr (s.estimateTripFare boardStationId s.route_state.station_id)
          s.standardFare)).setFareLabel
      "结算价").applyCachedProfile cardId nowMs).fareToCents

/-- `net.rs` `NetError` (the transport payloads are irrelevant to control
    flow and elided). -/
inductive NetErrorKind where
  | Io
  | Json
  | HttpStatus (status : Nat)
  | Api (message : String)
deriving DecidableEq, Repr

/-- The outcome of the HTTP POST inside `flush_batch`: a transport-level
    failure (any `?` propagation) or a response status code. -/
inductive HttpOutcome where
  | transport (err : NetErrorKind)
  | status (code : Nat)
deriving DecidableEq, Repr

/-- `net.rs` `flush_batch` (lines 262-293), with the HTTP exchange made an
    explicit `outcome` argument: an empty buffer returns immediately; a
    transport failure propagates with all state untouched; a non-2xx status
    marks the backend unreachable and keeps the batch; a 2xx status clears
    the buffer and the tap-event cache and marks the backend reachable. -/
def flushBatch (s : GatewayState) (buffer : List UploadRecord)
    (outcome : HttpOutcome) :
    GatewayState × List UploadRecord × Except NetErrorKind Unit :=
  if buffer = [] then (s, buffer, .ok ())
  else
    match outcome with
    | .transport err => (s, buffer, .error err)
    | .status code =>
      if ¬(200 ≤ code ∧ code < 300) then
        ({ s with backend_reachable := false }, buffer, .error (.HttpStatus code))
      else
        ({ s with tap_cache := s.tap_cache.clear, backend_reachable := true },
          [], .ok ())

/-- `proto.rs` `Frame`. -/
structure Frame where
  msg_type : Nat
  flags : Nat
  payload : List Nat
deriving DecidableEq, Repr

/-- `proto.rs` `FrameError`. -/
inductive FrameError where
  | TooShort
  | BadHeader
  | BadVersion
  | BadLength
  | BadChecksum
deriving DecidableEq, Repr

/-- `proto.rs` `checksum16`: truncating 16-bit sum of the bytes. -/
def checksum16 (data : List Nat) : Nat :=
  data.foldl (fun acc b => (acc + b) % 65536) 0

/-- `proto.rs` `encode_frame`: header `AA 55`, version 1, little-endian
    length of `TYPE + FLAGS + PAYLOAD` (as `u16`), type, flags, payload and
    the little-endian checksum over everything from the version byte on. -/
def encodeFrame (frame : Frame) : List Nat :=
  let body :=
    [170, 85, 1] ++ leBytes2 ((1 + 1 + frame.payload.length) % 65536) ++
      [frame.msg_type, frame.flags] ++ frame.payload
  body ++ leBytes2 (checksum16 (body.drop 2))

/-- `proto.rs` `decode_frame`. -/
def decodeFrame (data : List Nat) : Except FrameError Frame :=
  if data.length < 2 + 1 + 2 + 1 + 1 + 2 then .error .TooShort
  else if ¬(data.getD 0 0 = 170 ∧ data.getD 1 0 = 85) then .error .BadHeader
  else if data.getD 2 0 ≠ 1 then .error .BadVersion
  else
    let length := fromLe2 (data.getD 3 0) (data.getD 4 0)
    let expected := 2 + 1 + 2 + length + 2
    if data.length < expected then .error .BadLength
    else
      let checksum :=
        fromLe2 (data.getD (expected - 2) 0) (data.getD (expected - 1) 0)
      let computed := checksum16 ((data.take (expected - 2)).drop 2)
      if checksum ≠ computed then .error .BadChecksum
      else
        .ok
          { msg_type := data.getD 5 0
            flags := data.getD 6 0
            payload := (data.take (expected - 2)).drop 7 }

/-- A frame whose components fit the wire types (`u8` bytes). -/
def Frame.ValidBytes (f : Frame) : Prop :=
  f.msg_type < 256 ∧ f.flags < 256 ∧ ∀ b ∈ f.payload, b < 256

instance (f : Frame) : Decidable f.ValidBytes := by
  unfold Frame.ValidBytes
  infer_instance

/-- `serial_io.rs` `FrameReader`: byte-at-a-time frame reassembly state. -/
structure FrameReader where
  buffer : List Nat
  expected_len : Option Nat
deriving DecidableEq, Repr

/-- `serial_io.rs` `FrameReader::new` (also the state after `reset`). -/
def FrameReader.new : FrameReader := ⟨[], none⟩

/-- `serial_io.rs` `FrameReader::push`: append the byte, re-synchronise on
    the two-byte header, reject a wrong version at byte 3, latch the expected
    total length at byte 5, and decode once the buffer reaches it. -/
def FrameReader.push (r : FrameReader) (byte : Nat) :
    FrameReader × Option (Except FrameError Frame) :=
  let buffer := r.buffer ++ [byte]
  if buffer.length = 1 ∧ buffer.getD 0 0 ≠ 170 then (FrameReader.new, none)
  else if buffer.length = 2 ∧ buffer.getD 1 0 ≠ 85 then (FrameReader.new, none)
  else if buffer.length = 3 ∧ buffer.getD 2 0 ≠ 1 then
    (FrameReader.new, some (.error .BadVersion))
  else
    let expectedLen :=
      if buffer.length = 5 then
        some (2 + 1 + 2 + fromLe2 (buffer.getD 3 0) (buffer.getD 4 0) + 2)
      else r.expected_len
    match expectedLen with
    | some expected =>
      if buffer.length = expected then (FrameReader.new, some (decodeFrame buffer))
      else if buffer.length > expected then
        (FrameReader.new, some (.error .BadLength))
      else (⟨buffer, some expected⟩, none)
    | none => (⟨buffer, none⟩, none)

/-- Feed a byte sequence one byte at a time, collecting every emitted decode
    result (`serial_io.rs` `push_bytes_to_channel` drives `push` this way). -/
def FrameReader.feed (r : FrameReader) (bytes : List Nat) :
    FrameReader × List (Except FrameError Frame) :=
  match bytes with
  | [] => (r, [])
  | b :: rest =>
    let step := r.push b
    let next := step.1.feed rest
    (next.1, step.2.toList ++ next.2)

/-- A concrete settings value (matching `GatewaySettings::with_gateway_id`)
    used to instantiate theorems. -/
def exampleSettings : GatewaySettings :=
  { gateway_id := "gw", reader_id := 1, debounce_window_secs := 2,
    tap_cache_max := 512, config_ttl_secs := 300, blacklist_ttl_secs := 300,
    active_trip_ttl_secs := 3600, batch_size := 50 }

/-- A concrete freshly-bootstrapped gateway state (matching
    `GatewayState::bootstrap`) used to instantiate theorems. -/
def exampleState : GatewayState :=
  { settings := exampleSettings
    route_state := ⟨0, 0, "未设置", .Up⟩
    config_cache := ⟨none, 0, 300⟩
    blacklist_cache := ⟨[], 0, 300⟩
    tap_cache := ⟨512, []⟩
    debounce := ⟨2, 128, []⟩
    active_trips := ⟨3600, []⟩
    wifi_connected := false
    backend_reachable := false
    backend_base_url := ""
    last_card_id := ""
    last_card_data_len := 0
    last_card_data_prefix_hex := none
    last_card_data_error := none
    last_tap_nonce := 0
    last_message_deadline_ms := 0
    last_passenger_tone := .Normal
    last_passenger_message := "等待刷卡"
    last_fare_base := none
    last_fare := none
    last_fare_label := "应付"
    last_balance_cents := none
    last_tap_type := none
    card_cache := []
    card_state_cache := ⟨512, []⟩
    recharge_mode := none
    register_mode := none
    last_write_context := none
    last_written_balance_cents := none
    record_seq := 0 }

/-- A concrete upload record used to instantiate the batch-upload theorem. -/
def exampleUpload : UploadRecord :=
  { record_id := "gw-100-0", card_id := "04A1B2C3", route_id := some 1
    board_time := "100", alight_time := none, board_station_id := some 1
    board_station := some "一号站", alight_station_id := none
    alight_station := none, gateway_id := some "gw" }

/-- A frame whose payload length 65534 overflows the `u16` length field
    (`(1 + 1 + len) as u16` wraps to 0). -/
def frameOverflowExample : Frame := ⟨0, 0, List.replicate 65534 0⟩

/-- A small valid frame used as a witness input. -/
def frameSmallExample : Frame := ⟨1, 0, [5, 6, 250]⟩

/-- The garbage prefix for the C6 counterexample: it looks like the start of
    a frame announcing a 5-byte body. -/
def garbagePrefixExample : List Nat := [170, 85, 1, 5, 0]

/-- The frame for the C6 counterexample. -/
def frameTinyExample : Frame := ⟨0, 0, []⟩

/-- A cached backend profile carrying only a balance, used to resolve a card
    with unparseable on-card data. -/
def c9Profile : CachedCardProfile :=
  { card_type := none, status := none, discount_rate := none,
    discount_amount := none, balance_cents := some 500, updated_at_ms := 1000 }

/-- A bootstrapped gateway holding one cached profile and no route config. -/
def c9State : GatewayState :=
  { exampleState with card_cache := [("01020304", c9Profile)] }

/-- A tap event for the cached card with empty on-card data. -/
def c9Det : CardDetected :=
  { card_id := "01020304", tap_time := 5, reader_id := 1, card_data := [] }

/-- The card the cached profile resolves to. -/
def c9Card : CardData :=
  { uid := ⟨1, 2, 3, 4⟩, balance_cents := 500, status := .Idle,
    entry_station_id := none, last_route_id := none, last_direction := none,
    last_board_station_id := none, last_alight_station_id := none }

/-- The card written back by the zero-fare single tap on `c9State`. -/
def c1Card : CardData :=
  { uid := ⟨1, 2, 3, 4⟩, balance_cents := 500, status := .Idle,
    entry_station_id := none, last_route_id := some 0,
    last_direction := some .Up, last_board_station_id := none,
    last_alight_station_id := some 0 }

/-- The write request issued by the zero-fare single tap on `c9State`. -/
def c1W : CardWriteRequest :=
  { card_id := "01020304", card_data := c1Card.toBytes,
    block_start := CARD_DATA_BLOCK_START, block_count := CARD_DATA_BLOCK_COUNT }

/-- A one-rule tap-in-out route configuration with a 2-yuan uniform fare. -/
def c2Route : RouteConfig :=
  { route_id := 1, route_name := "一号线", fare_type := .Uniform,
    tap_mode := .TapInOut, max_fare := none, stations := [],
    fares := [{ base_price := ⟨2, 1⟩, fare_type := none, segment_count := none,
                extra_price := none, start_station := none,
                end_station := none }] }

/-- A cached profile whose balance cannot cover the 2-yuan settled fare. -/
def c2Profile : CachedCardProfile :=
  { card_type := none, status := none, discount_rate := none,
    discount_amount := none, balance_cents := some 100, updated_at_ms := 1000 }

/-- The pending boarding event stored in the active-trip cache. -/
def c2Prev : TapEvent :=
  { record_id := "gw-50-0", card_id := "01020304", route_id := 1,
    station_id := 1, station_name := "一号站", tap_type := .TapIn,
    tap_time := 50, gateway_id := "gw" }

/-- A tap-in-out gateway with a pending trip and an underfunded cached
    profile for the same card. -/
def c2State : GatewayState :=
  { exampleState with
      route_state := ⟨1, 2, "二号站", .Up⟩
      config_cache := ⟨some c2Route, 1000, 300⟩
      card_cache := [("01020304", c2Profile)]
      active_trips := ⟨3600, [⟨"01020304", c2Prev, 50⟩]⟩ }

/-- The alighting tap for the pending trip, with empty on-card data. -/
def c2Det : CardDetected :=
  { card_id := "01020304", tap_time := 90, reader_id := 1, card_data := [] }

/-- The card the underfunded cached profile resolves to. -/
def c2Card : CardData :=
  { uid := ⟨1, 2, 3, 4⟩, balance_cents := 100, status := .Idle,
    entry_station_id := none, last_route_id := none, last_direction := none,
    last_board_station_id := none, last_alight_station_id := none }

/-- A concrete valid card used to instantiate the codec round-trip. -/
def c4Card : CardData :=
  { uid := ⟨4, 161, 178, 195⟩, balance_cents := 1234, status := .InTrip,
    entry_station_id := some 7, last_route_id := some 1,
    last_direction := some .Down, last_board_station_id := some 7,
    last_alight_station_id := none }

/-!
## Basic arithmetic and codec lemmas
-/

theorem le2_roundtrip (v : Nat) (h : v < 65536) :
    fromLe2 (v % 256) (v / 256 % 256) = v := by
  unfold fromLe2
  omega

theorem le4_roundtrip (v : Nat) (h : v < 4294967296) :
    fromLe4 (v % 256) (v / 256 % 256) (v / 65536 % 256) (v / 16777216 % 256) = v := by
  unfold fromLe4
  omega

theorem crc16Round_lt (c : Nat) : crc16Round c < 65536 := by
  unfold crc16Round
  split <;> exact Nat.mod_lt _ (by norm_num)

theorem crc16Step_lt (c b : Nat) : crc16Step c b < 65536 := by
  unfold crc16Step
  rw [show (8 : Nat) = 7 + 1 from rfl, Function.iterate_succ_apply']
  exact crc16Round_lt _

theorem foldl_crc16_lt (l : List Nat) (acc : Nat) (h : acc < 65536) :
    l.foldl crc16Step acc < 65536 := by
  induction l generalizing acc with
  | nil => exact h
  | cons b rest ih => exact ih _ (crc16Step_lt _ _)

theorem crc16_lt (data : List Nat) : crc16 data < 65536 :=
  foldl_crc16_lt _ _ (by norm_num)

theorem foldl_checksum16_lt (l : List Nat) (acc : Nat) (h : acc < 65536) :
    l.foldl (fun acc b => (acc + b) % 65536) acc < 65536 := by
  induction l generalizing acc with
  | nil => exact h
  | cons b rest ih => exact ih _ (Nat.mod_lt _ (by norm_num))

theorem checksum16_lt (data : List Nat) : checksum16 data < 65536 :=
  foldl_checksum16_lt _ _ (by norm_num)

theorem optU16_roundtrip (v : Option Nat) (h : ∀ x ∈ v, x < 65535) :
    decodeOptionalU16 (v.getD 65535 % 256) (v.getD 65535 / 256 % 256) = v := by
  cases v with
  | none => decide
  | some x =>
    have hx : x < 65535 := h x (by simp)
    simp only [Option.getD_some, decodeOptionalU16, le2_roundtrip x (by omega)]
    simp only [show (x = 65535) = False by simp [Nat.ne_of_lt hx], if_false]

theorem dir_roundtrip (d : Option Direction) :
    decodeDirection (encodeDirection d) = d := by
  cases d with
  | none => rfl
  | some dir => cases dir <;> rfl

theorem status_roundtrip (st : CardStatus) : CardStatus.fromU8 st.asU8 = some st := by
  cases st <;> rfl

/-- **C4** -- For every `CardData` value with valid fields (each optional
    station/route id, when present, is not `0xFFFF`), decoding the 32-byte
    encoding succeeds and returns the same value field-by-field:
    `from_bytes_verbose(to_bytes(c)) = Ok(c)`. -/
theorem claim_C4 (c : CardData) (h : c.ValidFields) :
    CardData.fromBytesVerbose c.toBytes = .ok c := by
  obtain ⟨⟨u0, u1, u2, u3⟩, bal, st, ent, rt, dir, bd, al⟩ := c
  obtain ⟨h0, h1, h2, h3, hbal, hent, hrt, hbd, hal⟩ := h
  simp only [CardData.toBytes, CardData.toBytesBody, leBytes4, writeOptionalU16,
    leBytes2, List.cons_append, List.nil_append]
  unfold CardData.fromBytesVerbose
  simp only [le2_roundtrip _ (crc16_lt _), le4_roundtrip _ hbal,
    optU16_roundtrip _ hent, optU16_roundtrip _ hrt, optU16_roundtrip _ hbd,
    optU16_roundtrip _ hal, dir_roundtrip, status_roundtrip]
  simp

theorem getD_peel7 (l : List Nat) (a b c d e f g k : Nat) :
    (a :: b :: c :: d :: e :: f :: g :: l).getD (k + 7) 0 = l.getD k 0 := rfl

theorem take_peel7 (l : List Nat) (a b c d e f g k : Nat) :
    (a :: b :: c :: d :: e :: f :: g :: l).take (k + 7) =
      a :: b :: c :: d :: e :: f :: g :: l.take k := rfl

theorem encodeFrame_explicit (mt fl : Nat) (payload : List Nat) :
    encodeFrame ⟨mt, fl, payload⟩ =
      170 :: 85 :: 1 :: ((1 + 1 + payload.length) % 65536 % 256) ::
        ((1 + 1 + payload.length) % 65536 / 256 % 256) :: mt :: fl ::
        (payload ++
          [checksum16 (1 :: ((1 + 1 + payload.length) % 65536 % 256) ::
              ((1 + 1 + payload.length) % 65536 / 256 % 256) :: mt :: fl ::
              payload) % 256,
            checksum16 (1 :: ((1 + 1 + payload.length) % 65536 % 256) ::
              ((1 + 1 + payload.length) % 65536 / 256 % 256) :: mt :: fl ::
              payload) / 256 % 256]) := by
  simp [encodeFrame, leBytes2, List.cons_append, List.nil_append,
    List.append_assoc]

theorem frame_roundtrip (f : Frame) (hlen : f.payload.length ≤ 65533) :
    decodeFrame (encodeFrame f) = .ok f := by
  obtain ⟨mt, fl, payload⟩ := f
  replace hlen : payload.length ≤ 65533 := hlen
  rw [encodeFrame_explicit]
  have hmod : (1 + 1 + payload.length) % 65536 = 2 + payload.length :=
    Nat.mod_eq_of_lt (by omega)
  set n := payload.length with hn
  set ck := checksum16 (1 :: ((1 + 1 + n) % 65536 % 256) ::
      ((1 + 1 + n) % 65536 / 256 % 256) :: mt :: fl :: payload) with hck
  set data := 170 :: 85 :: 1 :: ((1 + 1 + n) % 65536 % 256) ::
      ((1 + 1 + n) % 65536 / 256 % 256) :: mt :: fl ::
      (payload ++ [ck % 256, ck / 256 % 256]) with hdata
  have hdlen : data.length = 9 + n := by
    simp [hdata, List.length_append]
    omega
  have hflen : fromLe2 (data.getD 3 0) (data.getD 4 0) = 2 + n := by
    simp [hdata, List.getD_cons_succ, List.getD_cons_zero]
    rw [le2_roundtrip _ (Nat.mod_lt _ (by norm_num))]
    exact hmod
  unfold decodeFrame
  rw [hflen]
  have h9 : ¬(data.length < 2 + 1 + 2 + 1 + 1 + 2) := by omega
  rw [if_neg h9]
  rw [if_neg (by simp [hdata])]
  rw [if_neg (by simp [hdata])]
  dsimp only
  have hexp : 2 + 1 + 2 + (2 + n) + 2 = 9 + n := by omega
  rw [hexp]
  rw [if_neg (by omega)]
  have hck0 : data.getD (9 + n - 2) 0 = ck % 256 := by
    rw [show 9 + n - 2 = n + 7 by omega, hdata, getD_peel7,
      List.getD_append_right _ _ _ _ (by omega)]
    simp
  have hck1 : data.getD (9 + n - 1) 0 = ck / 256 % 256 := by
    rw [show 9 + n - 1 = (n + 1) + 7 by omega, hdata, getD_peel7,
      List.getD_append_right _ _ _ _ (by omega)]
    rw [show n + 1 - payload.length = 1 by omega]
    rfl
  rw [hck0, hck1, le2_roundtrip _ (checksum16_lt _)]
  have htake : data.take (9 + n - 2) = 170 :: 85 :: 1 ::
      ((1 + 1 + n) % 65536 % 256) :: ((1 + 1 + n) % 65536 / 256 % 256) ::
      mt :: fl :: payload := by
    rw [show 9 + n - 2 = n + 7 by omega, hdata, take_peel7]
    congr 7
    rw [hn]
    exact List.take_left _ _
  rw [htake]
  rw [if_neg (by simp)]
  simp
  refine ⟨?_, ?_⟩ <;>
    (rw [hdata]; simp [List.getElem?_cons_succ, List.getElem?_cons_zero])

/-- **C5 (amended)** -- for payloads of at most 65533 bytes the frame codec
    round-trips: `decode_frame(encode_frame(f))` is `Ok` of a frame equal to
    `f` (same msg_type, same flags, same payload bytes).  (At 65534 or 65535
    payload bytes the `u16` length field `(1 + 1 + len) as u16` wraps and the
    round-trip is no longer guaranteed: see the counterexample.) -/
theorem claim_C5 (f : Frame) (hlen : f.payload.length ≤ 65533) :
    decodeFrame (encodeFrame f) = .ok f :=
  frame_roundtrip f hlen

/-- Any frame with msg_type 0, flags 0 and a 65534-byte payload fails to
    decode after encoding: the `u16` length field wraps to 0 and the
    checksum check at the wrapped position fails. -/
theorem frame_overflow_fails (payload : List Nat) (hlen : payload.length = 65534) :
    decodeFrame (encodeFrame ⟨0, 0, payload⟩) = .error .BadChecksum := by
  rw [encodeFrame_explicit, hlen]
  norm_num
  set ck := checksum16 (1 :: 0 :: 0 :: 0 :: 0 :: payload) with hck
  set data := 170 :: 85 :: 1 :: 0 :: 0 :: 0 :: 0 ::
      (payload ++ [ck % 256, ck / 256 % 256]) with hdata
  have hdlen : data.length = 65543 := by
    rw [hdata]
    simp [List.length_append, hlen]
  unfold decodeFrame
  rw [if_neg (by omega)]
  rw [if_neg (by rw [hdata]; simp)]
  rw [if_neg (by rw [hdata]; simp)]
  have hflen : fromLe2 (data.getD 3 0) (data.getD 4 0) = 0 := by
    rw [hdata]
    rfl
  rw [hflen]
  dsimp only
  rw [if_neg (by omega)]
  have hs5 : data.getD (2 + 1 + 2 + 0 + 2 - 2) 0 = 0 := by
    rw [hdata]
    rfl
  have hs6 : data.getD (2 + 1 + 2 + 0 + 2 - 1) 0 = 0 := by
    rw [hdata]
    rfl
  rw [hs5, hs6]
  have hcomp : checksum16 ((data.take (2 + 1 + 2 + 0 + 2 - 2)).drop 2) = 1 := by
    rw [hdata]
    rfl
  rw [hcomp]
  rw [if_pos (by decide)]

/-- **C5 (counterexample)** -- the claim's bound "payload at most 65535" is
    too generous: this frame has payload length 65534 ≤ 65535, yet decoding
    its encoding fails with a checksum error instead of returning it. -/
theorem claim_C5_counterexample :
    frameOverflowExample.payload.length ≤ 65535 ∧
      decodeFrame (encodeFrame frameOverflowExample) ≠ .ok frameOverflowExample := by
  constructor
  · show (List.replicate 65534 (0 : Nat)).length ≤ 65535
    rw [List.length_replicate]
    omega
  · show decodeFrame (encodeFrame ⟨0, 0, List.replicate 65534 0⟩) ≠ _
    rw [frame_overflow_fails _ (List.length_replicate 65534 0)]
    exact fun h => Except.noConfusion h

/-- **C5 witness** -- the amended round-trip at a concrete frame. -/
theorem claim_C5_witness :
    frameSmallExample.payload.length ≤ 65533 ∧
      decodeFrame (encodeFrame frameSmallExample) = .ok frameSmallExample :=
  ⟨by decide, claim_C5 frameSmallExample (by decide)⟩

theorem feed_cons (r : FrameReader) (b : Nat) (rest : List Nat) :
    r.feed (b :: rest) =
      (((r.push b).1.feed rest).1,
        (r.push b).2.toList ++ ((r.push b).1.feed rest).2) := rfl

theorem feed_garbage (g : List Nat) (hg : ∀ b ∈ g, b ≠ 170) (rest : List Nat) :
    FrameReader.new.feed (g ++ rest) = FrameReader.new.feed rest := by
  induction g with
  | nil => simp
  | cons b g' ih =>
    have hb : b ≠ 170 := hg b (by simp)
    have hpush : FrameReader.new.push b = (FrameReader.new, none) := by
      unfold FrameReader.push
      rw [if_pos]
      simp [FrameReader.new, hb]
    rw [List.cons_append, feed_cons, hpush]
    simp only [Option.toList_none, List.nil_append]
    exact ih (fun x hx => hg x (by simp [hx]))

theorem push_mid (B : List Nat) (E : Nat) (b : Nat) (h5 : 5 ≤ B.length) :
    FrameReader.push ⟨B, some E⟩ b =
      if B.length + 1 = E then (FrameReader.new, some (decodeFrame (B ++ [b])))
      else if B.length + 1 > E then (FrameReader.new, some (.error .BadLength))
      else (⟨B ++ [b], some E⟩, none) := by
  unfold FrameReader.push
  have hblen : (B ++ [b]).length = B.length + 1 := by simp
  dsimp only
  rw [hblen]
  rw [if_neg (by rintro ⟨h, -⟩; omega)]
  rw [if_neg (by rintro ⟨h, -⟩; omega)]
  rw [if_neg (by rintro ⟨h, -⟩; omega)]
  rw [if_neg (by omega)]

theorem feed_fill (rest : List Nat) (B : List Nat) (E : Nat) (h5 : 5 ≤ B.length)
    (hlen : B.length + rest.length = E) (hne : rest ≠ []) :
    FrameReader.feed ⟨B, some E⟩ rest =
      (FrameReader.new, [decodeFrame (B ++ rest)]) := by
  induction rest generalizing B with
  | nil => exact absurd rfl hne
  | cons b rest' ih =>
    rw [feed_cons, push_mid B E b h5]
    cases rest' with
    | nil =>
      have hE : B.length + 1 = E := by simp at hlen; omega
      rw [if_pos hE]
      simp [FrameReader.feed]
    | cons c rest'' =>
      have hlt : B.length + 1 < E := by simp at hlen; omega
      rw [if_neg (by omega), if_neg (by omega)]
      have hres := ih (B ++ [b]) (by simp; omega) (by simp at hlen ⊢; omega)
        (by simp)
      rw [hres]
      simp [List.append_assoc]

theorem feed_encode (f : Frame) (hlen : f.payload.length ≤ 65533) :
    FrameReader.new.feed (encodeFrame f) = (FrameReader.new, [.ok f]) := by
  have hdec := frame_roundtrip f hlen
  obtain ⟨mt, fl, payload⟩ := f
  replace hlen : payload.length ≤ 65533 := hlen
  rw [encodeFrame_explicit] at hdec ⊢
  set n := payload.length with hn
  set lo := (1 + 1 + n) % 65536 % 256 with hlo
  set hi := (1 + 1 + n) % 65536 / 256 % 256 with hhi
  set ck := checksum16 (1 :: lo :: hi :: mt :: fl :: payload) with hck
  have hfle : fromLe2 lo hi = 2 + n := by
    rw [hlo, hhi, le2_roundtrip _ (Nat.mod_lt _ (by norm_num))]
    exact Nat.mod_eq_of_lt (by omega)
  have p1 : FrameReader.new.push 170 = (⟨[170], none⟩, none) := rfl
  have p2 : FrameReader.push ⟨[170], none⟩ 85 = (⟨[170, 85], none⟩, none) := rfl
  have p3 : FrameReader.push ⟨[170, 85], none⟩ 1 =
      (⟨[170, 85, 1], none⟩, none) := rfl
  have p4 : FrameReader.push ⟨[170, 85, 1], none⟩ lo =
      (⟨[170, 85, 1, lo], none⟩, none) := rfl
  have p5 : FrameReader.push ⟨[170, 85, 1, lo], none⟩ hi =
      (⟨[170, 85, 1, lo, hi], some (9 + n)⟩, none) := by
    unfold FrameReader.push
    dsimp only
    rw [if_neg (by rintro ⟨h, -⟩; simp at h)]
    rw [if_neg (by rintro ⟨h, -⟩; simp at h)]
    rw [if_neg (by rintro ⟨h, -⟩; simp at h)]
    rw [if_pos (by simp)]
    have : fromLe2 (([170, 85, 1, lo] ++ [hi]).getD 3 0)
        (([170, 85, 1, lo] ++ [hi]).getD 4 0) = 2 + n := by
      simpa using hfle
    rw [this]
    rw [show 2 + 1 + 2 + (2 + n) + 2 = 9 + n by omega]
    dsimp only
    rw [if_neg (by simp; omega)]
    rw [if_neg (by simp; omega)]
    simp
  rw [feed_cons, p1]
  rw [feed_cons, p2]
  rw [feed_cons, p3]
  rw [feed_cons, p4]
  rw [feed_cons, p5]
  rw [feed_fill _ _ _ (by simp) (by simp [List.length_append]; omega) (by simp)]
  have harg : ([170, 85, 1, lo, hi] : List Nat) ++
      (mt :: fl :: (payload ++ [ck % 256, ck / 256 % 256])) =
      170 :: 85 :: 1 :: lo :: hi :: mt :: fl ::
        (payload ++ [ck % 256, ck / 256 % 256]) := by
    simp
  rw [harg, hdec]
  simp

/-- **C6 (amended)** -- feeding the streaming frame decoder any garbage
    prefix that contains no `0xAA` (the first header byte), followed by the
    encoding of a frame `f` with payload at most 65533 bytes, one byte at a
    time, emits exactly the successfully decoded frame `f`; in particular
    (empty prefix) feeding `encode_frame(f)` alone yields `f`.  (An
    arbitrary garbage prefix can open a bogus frame that swallows the real
    one, see the counterexample.) -/
theorem claim_C6 (g : List Nat) (hg : ∀ b ∈ g, b ≠ 170) (f : Frame)
    (hlen : f.payload.length ≤ 65533) :
    (FrameReader.new.feed (g ++ encodeFrame f)).2 = [.ok f] := by
  rw [feed_garbage g hg, feed_encode f hlen]

/-- **C6 (counterexample)** -- the claim's "for every byte sequence g" is
    too strong: this garbage prefix opens a bogus frame whose announced
    length swallows the real frame's bytes, so the decoder emits only a
    checksum error and never the frame itself. -/
theorem claim_C6_counterexample :
    (FrameReader.new.feed (garbagePrefixExample ++ encodeFrame frameTinyExample)).2 =
        [.error .BadChecksum] ∧
      ¬(.ok frameTinyExample) ∈
        (FrameReader.new.feed (garbagePrefixExample ++ encodeFrame frameTinyExample)).2 := by
  constructor
  · decide
  · decide

/-- **C6 witness** -- the amended claim at a concrete garbage prefix and
    frame. -/
theorem claim_C6_witness :
    (∀ b ∈ ([9, 9] : List Nat), b ≠ 170) ∧
      frameSmallExample.payload.length ≤ 65533 ∧
      (FrameReader.new.feed ([9, 9] ++ encodeFrame frameSmallExample)).2 =
        [.ok frameSmallExample] :=
  ⟨by decide, by decide, claim_C6 [9, 9] (by decide) frameSmallExample (by decide)⟩

/-- **C7** -- batch upload is all-or-nothing: with a non-empty buffer, a 2xx
    status clears the upload buffer and the in-memory tap-event cache and
    marks the backend reachable; a non-2xx status keeps the buffer exactly
    and marks the backend unreachable; a transport failure keeps buffer and
    state untouched. -/
theorem claim_C7 (s : GatewayState) (buffer : List UploadRecord)
    (outcome : HttpOutcome) (hne : buffer ≠ []) :
    (∀ code, outcome = .status code → 200 ≤ code → code < 300 →
        flushBatch s buffer outcome =
          ({ s with tap_cache := s.tap_cache.clear, backend_reachable := true },
            [], .ok ())) ∧
      (∀ code, outcome = .status code → ¬(200 ≤ code ∧ code < 300) →
        flushBatch s buffer outcome =
          ({ s with backend_reachable := false }, buffer,
            .error (.HttpStatus code))) ∧
      (∀ err, outcome = .transport err →
        flushBatch s buffer outcome = (s, buffer, .error err)) := by
  refine ⟨fun code hc h1 h2 => ?_, fun code hc hno => ?_, fun err he => ?_⟩
  · subst hc
    unfold flushBatch
    rw [if_neg hne]
    dsimp only
    rw [if_neg (by omega)]
  · subst hc
    unfold flushBatch
    rw [if_neg hne]
    dsimp only
    rw [if_pos hno]
  · subst he
    unfold flushBatch
    rw [if_neg hne]

/-- **C7 witness** -- the batch-upload theorem at a concrete non-empty
    buffer. -/
theorem claim_C7_witness :
    (([exampleUpload] : List UploadRecord) ≠ []) ∧
      ((∀ code, (HttpOutcome.status 503) = .status code → 200 ≤ code → code < 300 →
          flushBatch exampleState [exampleUpload] (.status 503) =
            ({ exampleState with
                tap_cache := exampleState.tap_cache.clear
                backend_reachable := true }, [], .ok ())) ∧
        (∀ code, (HttpOutcome.status 503) = .status code → ¬(200 ≤ code ∧ code < 300) →
          flushBatch exampleState [exampleUpload] (.status 503) =
            ({ exampleState with backend_reachable := false }, [exampleUpload],
              .error (.HttpStatus code))) ∧
        (∀ err, (HttpOutcome.status 503) = .transport err →
          flushBatch exampleState [exampleUpload] (.status 503) =
            (exampleState, [exampleUpload], .error err))) :=
  ⟨by simp, claim_C7 exampleState [exampleUpload] (.status 503) (by simp)⟩

/-- **C8 (amended)** -- when the debounce filter is consulted for a card-id
    whose entry survives the expiry purge (a hit, necessarily within the
    debounce window), `allow` returns `false` and leaves the purged entries
    unchanged -- in particular the entry's seen-time is NOT updated to the
    current call's time. -/
theorem claim_C8 (d : TapDebounce) (cardId : String) (now : Nat) (e : TapSeen)
    (hfind : (d.purgeExpired now).entries.find? (fun x => x.card_id = cardId) =
      some e) :
    d.allow cardId now = (d.purgeExpired now, false) := by
  unfold TapDebounce.allow
  dsimp only
  rw [hfind]
  have hmem : e ∈ (d.purgeExpired now).entries := List.mem_of_find?_eq_some hfind
  have hwin : now - e.last_seen ≤ d.window_secs := by
    have hp := (List.mem_filter.mp hmem).2
    simp at hp
    omega
  dsimp only
  rw [show (d.purgeExpired now).window_secs = d.window_secs from rfl]
  rw [if_pos hwin]

/-- **C8 counterexample** -- the original claim also asserts the hit entry's
    seen-time is updated to the current call's time; it is not: for the
    entry last seen at 10 with window 2, a call at 11 returns `false` and
    leaves the seen-time at 10. -/
theorem claim_C8_counterexample :
    (TapDebounce.allow ⟨2, 128, [⟨"AB", 10⟩]⟩ "AB" 11).2 = false ∧
      (TapDebounce.allow ⟨2, 128, [⟨"AB", 10⟩]⟩ "AB" 11).1.entries =
        [⟨"AB", 10⟩] ∧
      (TapDebounce.allow ⟨2, 128, [⟨"AB", 10⟩]⟩ "AB" 11).1.entries ≠
        [⟨"AB", 11⟩] := by
  refine ⟨by decide, by decide, by decide⟩

/-- **C8 witness** -- the amended claim at the same concrete debounce
    state. -/
theorem claim_C8_witness :
    ((TapDebounce.purgeExpired ⟨2, 128, [⟨"AB", 10⟩]⟩ 11).entries.find?
        (fun x => x.card_id = "AB") = some ⟨"AB", 10⟩) ∧
      TapDebounce.allow ⟨2, 128, [⟨"AB", 10⟩]⟩ "AB" 11 =
        (TapDebounce.purgeExpired ⟨2, 128, [⟨"AB", 10⟩]⟩ 11, false) :=
  ⟨by decide, claim_C8 ⟨2, 128, [⟨"AB", 10⟩]⟩ "AB" 11 ⟨"AB", 10⟩ (by decide)⟩

/-- **C10** -- `set_recharge_mode` with amount 0 or above 20000 cents leaves
    the whole state unchanged (recharge mode not activated, register mode
    not cleared); amounts 1..=20000 activate recharge mode with a 60-second
    (saturating) expiry, clear register mode, and change nothing else. -/
theorem claim_C10 (s : GatewayState) (amountCents nowMs : Nat) :
    ((amountCents = 0 ∨ 20000 < amountCents) →
        s.setRechargeMode amountCents nowMs = s) ∧
      (1 ≤ amountCents → amountCents ≤ 20000 →
        (s.setRechargeMode amountCents nowMs).recharge_mode =
            some ⟨amountCents, satAdd64 nowMs 60000⟩ ∧
          (s.setRechargeMode amountCents nowMs).register_mode = none ∧
          { s.setRechargeMode amountCents nowMs with
              recharge_mode := s.recharge_mode
              register_mode := s.register_mode } = s) := by
  constructor
  · intro h
    unfold GatewayState.setRechargeMode
    rw [if_pos (by unfold MAX_RECHARGE_CENTS; omega)]
  · intro h1 h2
    unfold GatewayState.setRechargeMode
    rw [if_neg (by unfold MAX_RECHARGE_CENTS; omega)]
    refine ⟨rfl, rfl, rfl⟩

/-- `refresh_modes` only touches the two mode fields. -/
theorem refreshModes_settings (s : GatewayState) (t : Nat) :
    (s.refreshModes t).settings = s.settings := by
  unfold GatewayState.refreshModes
  dsimp only
  repeat' split
  all_goals rfl

theorem refreshModes_route_state (s : GatewayState) (t : Nat) :
    (s.refreshModes t).route_state = s.route_state := by
  unfold GatewayState.refreshModes
  dsimp only
  repeat' split
  all_goals rfl

theorem refreshModes_config_cache (s : GatewayState) (t : Nat) :
    (s.refreshModes t).config_cache = s.config_cache := by
  unfold GatewayState.refreshModes
  dsimp only
  repeat' split
  all_goals rfl

theorem refreshModes_blacklist_cache (s : GatewayState) (t : Nat) :
    (s.refreshModes t).blacklist_cache = s.blacklist_cache := by
  unfold GatewayState.refreshModes
  dsimp only
  repeat' split
  all_goals rfl

theorem refreshModes_debounce (s : GatewayState) (t : Nat) :
    (s.refreshModes t).debounce = s.debounce := by
  unfold GatewayState.refreshModes
  dsimp only
  repeat' split
  all_goals rfl

theorem refreshModes_active_trips (s : GatewayState) (t : Nat) :
    (s.refreshModes t).active_trips = s.active_trips := by
  unfold GatewayState.refreshModes
  dsimp only
  repeat' split
  all_goals rfl

theorem refreshModes_card_cache (s : GatewayState) (t : Nat) :
    (s.refreshModes t).card_cache = s.card_cache := by
  unfold GatewayState.refreshModes
  dsimp only
  repeat' split
  all_goals rfl

theorem refreshModes_last_fare (s : GatewayState) (t : Nat) :
    (s.refreshModes t).last_fare = s.last_fare := by
  unfold GatewayState.refreshModes
  dsimp only
  repeat' split
  all_goals rfl

theorem refreshModes_last_fare_base (s : GatewayState) (t : Nat) :
    (s.refreshModes t).last_fare_base = s.last_fare_base := by
  unfold GatewayState.refreshModes
  dsimp only
  repeat' split
  all_goals rfl

/-- `reject_blacklisted` always yields a rejected decision. -/
theorem rejectBlacklisted_decision_cases (s : GatewayState) (cardId : String)
    (cd : Option CardData) (t : Nat) :
    ∃ w, (s.rejectBlacklisted cardId cd t).2 =
      ⟨CardAck.rejected, none, none, w, none⟩ := by
  unfold GatewayState.rejectBlacklisted
  exact ⟨_, rfl⟩

/-- `handle_register` yields a rejection or an accepted registration. -/
theorem handleRegister_decision_cases (s : GatewayState) (cardId : String)
    (uid : Option Uid4) (cd : Option CardData) (t : Nat) :
    (∃ w, (s.handleRegister cardId uid cd t).2 =
        ⟨CardAck.rejected, none, none, w, none⟩) ∨
      (∃ w r, (s.handleRegister cardId uid cd t).2 =
        ⟨CardAck.accepted, none, none, some w, some r⟩) := by
  unfold GatewayState.handleRegister
  dsimp only
  repeat' split
  all_goals first
    | exact Or.inl ⟨_, rfl⟩
    | exact Or.inr ⟨_, _, rfl⟩

/-- `handle_recharge` yields a rejection or an accepted recharge. -/
theorem handleRecharge_decision_cases (s : GatewayState) (cardId : String)
    (cd : Option CardData) (t : Nat) :
    (∃ w, (s.handleRecharge cardId cd t).2 =
        ⟨CardAck.rejected, none, none, w, none⟩) ∨
      (∃ w, (s.handleRecharge cardId cd t).2 =
        ⟨CardAck.accepted, none, none, some w, none⟩) := by
  unfold GatewayState.handleRecharge
  dsimp only
  repeat' split
  all_goals first
    | exact Or.inl ⟨_, rfl⟩
    | exact Or.inr ⟨_, rfl⟩

/-- The normal tap path yields a rejection or an accepted tap decision. -/
theorem tapPath_decision_cases (s : GatewayState) (cardId : String)
    (cd : CardData) (tapTime now nowMs : Nat) :
    (∃ w, (s.tapPath cardId cd tapTime now nowMs).2 =
        ⟨CardAck.rejected, none, none, w, none⟩) ∨
      (∃ e u w, (s.tapPath cardId cd tapTime now nowMs).2 =
        ⟨CardAck.accepted, some e, u, w, none⟩) := by
  unfold GatewayState.tapPath GatewayState.tapSingleArm GatewayState.tapInOutInArm
    GatewayState.tapOutArm
  dsimp only
  repeat' split
  all_goals first
    | exact Or.inl ⟨_, rfl⟩
    | exact Or.inr ⟨_, _, _, rfl⟩

/-- Every decision of `handle_card_detected` has one of four shapes: a
    rejection, an accepted tap, an accepted registration, or an accepted
    recharge. -/
theorem handle_decision_cases (s : GatewayState) (det : CardDetected)
    (now nowMs : Nat) :
    (∃ w, (s.handleCardDetected det now nowMs).2 =
        ⟨CardAck.rejected, none, none, w, none⟩) ∨
      (∃ e u w, (s.handleCardDetected det now nowMs).2 =
        ⟨CardAck.accepted, some e, u, w, none⟩) ∨
      (∃ w r, (s.handleCardDetected det now nowMs).2 =
        ⟨CardAck.accepted, none, none, some w, some r⟩) ∨
      (∃ w, (s.handleCardDetected det now nowMs).2 =
        ⟨CardAck.accepted, none, none, some w, none⟩) := by
  unfold GatewayState.handleCardDetected
  dsimp only
  repeat' split
  all_goals first
    | exact Or.inl ⟨_, rfl⟩
    | exact Or.inl (rejectBlacklisted_decision_cases _ _ _ _)
    | exact (handleRegister_decision_cases _ _ _ _ _).elim Or.inl
        (fun h => Or.inr (Or.inr (Or.inl h)))
    | exact (handleRecharge_decision_cases _ _ _ _).elim Or.inl
        (fun h => Or.inr (Or.inr (Or.inr h)))
    | exact (tapPath_decision_cases _ _ _ _ _ _).elim Or.inl
        (fun h => Or.inr (Or.inl h))

/-- **C3** -- in every `Decision` returned by `handle_card_detected`, at most
    one of `event` and `registration` is non-None; a registration Decision
    never carries an upload record; and a rejected ACK (result = 0) implies
    `event`, `upload_record` and `registration` are all None. -/
theorem claim_C3 (s : GatewayState) (det : CardDetected) (now nowMs : Nat) :
    ((s.handleCardDetected det now nowMs).2.event = none ∨
        (s.handleCardDetected det now nowMs).2.registration = none) ∧
      ((s.handleCardDetected det now nowMs).2.registration ≠ none →
        (s.handleCardDetected det now nowMs).2.upload_record = none) ∧
      ((s.handleCardDetected det now nowMs).2.ack.result = 0 →
        (s.handleCardDetected det now nowMs).2.event = none ∧
          (s.handleCardDetected det now nowMs).2.upload_record = none ∧
          (s.handleCardDetected det now nowMs).2.registration = none) := by
  rcases handle_decision_cases s det now nowMs with
    ⟨w, h⟩ | ⟨e, u, w, h⟩ | ⟨w, r, h⟩ | ⟨w, h⟩ <;>
    rw [h] <;> simp [CardAck.accepted, CardAck.rejected]

/-!
## Projection lemmas for the small state-update helpers

Each helper only writes the fields its Rust counterpart assigns; these
`rfl` lemmas let proofs track the untouched fields without expanding the
state record.
-/

theorem setActiveTrips_card_cache (s : GatewayState) (trips : ActiveTripCache) :
    (s.setActiveTrips trips).card_cache = s.card_cache := rfl

theorem setActiveTrips_config_cache (s : GatewayState) (trips : ActiveTripCache) :
    (s.setActiveTrips trips).config_cache = s.config_cache := rfl

theorem setActiveTrips_route_state (s : GatewayState) (trips : ActiveTripCache) :
    (s.setActiveTrips trips).route_state = s.route_state := rfl

theorem setActiveTrips_settings (s : GatewayState) (trips : ActiveTripCache) :
    (s.setActiveTrips trips).settings = s.settings := rfl

theorem setActiveTrips_active_trips (s : GatewayState) (trips : ActiveTripCache) :
    (s.setActiveTrips trips).active_trips = trips := rfl

theorem setActiveTrips_register_mode (s : GatewayState) (trips : ActiveTripCache) :
    (s.setActiveTrips trips).register_mode = s.register_mode := rfl

theorem setActiveTrips_recharge_mode (s : GatewayState) (trips : ActiveTripCache) :
    (s.setActiveTrips trips).recharge_mode = s.recharge_mode := rfl

theorem setActiveTrips_blacklist_cache (s : GatewayState) (trips : ActiveTripCache) :
    (s.setActiveTrips trips).blacklist_cache = s.blacklist_cache := rfl

theorem setActiveTrips_last_passenger_tone (s : GatewayState) (trips : ActiveTripCache) :
    (s.setActiveTrips trips).last_passenger_tone = s.last_passenger_tone := rfl

theorem setActiveTrips_last_passenger_message (s : GatewayState) (trips : ActiveTripCache) :
    (s.setActiveTrips trips).last_passenger_message = s.last_passenger_message := rfl

theorem setActiveTrips_last_fare (s : GatewayState) (trips : ActiveTripCache) :
    (s.setActiveTrips trips).last_fare = s.last_fare := rfl

theorem setActiveTrips_last_fare_base (s : GatewayState) (trips : ActiveTripCache) :
    (s.setActiveTrips trips).last_fare_base = s.last_fare_base := rfl

theorem setNormalTone_card_cache (s : GatewayState) :
    s.setNormalTone.card_cache = s.card_cache := rfl

theorem setNormalTone_config_cache (s : GatewayState) :
    s.setNormalTone.config_cache = s.config_cache := rfl

theorem setNormalTone_route_state (s : GatewayState) :
    s.setNormalTone.route_state = s.route_state := rfl

theorem setNormalTone_settings (s : GatewayState) :
    s.setNormalTone.settings = s.settings := rfl

theorem setNormalTone_active_trips (s : GatewayState) :
    s.setNormalTone.active_trips = s.active_trips := rfl

theorem setNormalTone_register_mode (s : GatewayState) :
    s.setNormalTone.register_mode = s.register_mode := rfl

theorem setNormalTone_recharge_mode (s : GatewayState) :
    s.setNormalTone.recharge_mode = s.recharge_mode := rfl

theorem setNormalTone_blacklist_cache (s : GatewayState) :
    s.setNormalTone.blacklist_cache = s.blacklist_cache := rfl

theorem setNormalTone_last_passenger_tone (s : GatewayState) :
    s.setNormalTone.last_passenger_tone = PassengerTone.Normal := rfl

theorem setNormalTone_last_passenger_message (s : GatewayState) :
    s.setNormalTone.last_passenger_message = s.last_passenger_message := rfl

theorem setNormalTone_last_fare (s : GatewayState) :
    s.setNormalTone.last_fare = s.last_fare := rfl

theorem setNormalTone_last_fare_base (s : GatewayState) :
    s.setNormalTone.last_fare_base = s.last_fare_base := rfl

theorem setFares_card_cache (s : GatewayState) (fare : Option Q) :
    (s.setFares fare).card_cache = s.card_cache := rfl

theorem setFares_config_cache (s : GatewayState) (fare : Option Q) :
    (s.setFares fare).config_cache = s.config_cache := rfl

theorem setFares_route_state (s : GatewayState) (fare : Option Q) :
    (s.setFares fare).route_state = s.route_state := rfl

theorem setFares_settings (s : GatewayState) (fare : Option Q) :
    (s.setFares fare).settings = s.settings := rfl

theorem setFares_active_trips (s : GatewayState) (fare : Option Q) :
    (s.setFares fare).active_trips = s.active_trips := rfl

theorem setFares_register_mode (s : GatewayState) (fare : Option Q) :
    (s.setFares fare).register_mode = s.register_mode := rfl

theorem setFares_recharge_mode (s : GatewayState) (fare : Option Q) :
    (s.setFares fare).recharge_mode = s.recharge_mode := rfl

theorem setFares_blacklist_cache (s : GatewayState) (fare : Option Q) :
    (s.setFares fare).blacklist_cache = s.blacklist_cache := rfl

theorem setFares_last_passenger_tone (s : GatewayState) (fare : Option Q) :
    (s.setFares fare).last_passenger_tone = s.last_passenger_tone := rfl

theorem setFares_last_passenger_message (s : GatewayState) (fare : Option Q) :
    (s.setFares fare).last_passenger_message = s.last_passenger_message := rfl

theorem setFares_last_fare (s : GatewayState) (fare : Option Q) :
    (s.setFares fare).last_fare = fare := rfl

theorem setFares_last_fare_base (s : GatewayState) (fare : Option Q) :
    (s.setFares fare).last_fare_base = fare := rfl

theorem setFareDisplay_card_cache (s : GatewayState) (fare : Option Q) (label : String) :
    (s.setFareDisplay fare label).card_cache = s.card_cache := rfl

theorem setFareDisplay_config_cache (s : GatewayState) (fare : Option Q) (label : String) :
    (s.setFareDisplay fare label).config_cache = s.config_cache := rfl

theorem setFareDisplay_route_state (s : GatewayState) (fare : Option Q) (label : String) :
    (s.setFareDisplay fare label).route_state = s.route_state := rfl

theorem setFareDisplay_settings (s : GatewayState) (fare : Option Q) (label : String) :
    (s.setFareDisplay fare label).settings = s.settings := rfl

theorem setFareDisplay_active_trips (s : GatewayState) (fare : Option Q) (label : String) :
    (s.setFareDisplay fare label).active_trips = s.active_trips := rfl

theorem setFareDisplay_register_mode (s : GatewayState) (fare : Option Q) (label : String) :
    (s.setFareDisplay fare label).register_mode = s.register_mode := rfl

theorem setFareDisplay_recharge_mode (s : GatewayState) (fare : Option Q) (label : String) :
    (s.setFareDisplay fare label).recharge_mode = s.recharge_mode := rfl

theorem setFareDisplay_blacklist_cache (s : GatewayState) (fare : Option Q) (label : String) :
    (s.setFareDisplay fare label).blacklist_cache = s.blacklist_cache := rfl

theorem setFareDisplay_last_passenger_tone (s : GatewayState) (fare : Option Q) (label : String) :
    (s.setFareDisplay fare label).last_passenger_tone = s.last_passenger_tone := rfl

theorem setFareDisplay_last_passenger_message (s : GatewayState) (fare : Option Q) (label : String) :
    (s.setFareDisplay fare label).last_passenger_message = s.last_passenger_message := rfl

theorem setFareDisplay_last_fare (s : GatewayState) (fare : Option Q) (label : String) :
    (s.setFareDisplay fare label).last_fare = fare := rfl

theorem setFareDisplay_last_fare_base (s : GatewayState) (fare : Option Q) (label : String) :
    (s.setFareDisplay fare label).last_fare_base = fare := rfl

theorem setFareLabel_card_cache (s : GatewayState) (label : String) :
    (s.setFareLabel label).card_cache = s.card_cache := rfl

theorem setFareLabel_config_cache (s : GatewayState) (label : String) :
    (s.setFareLabel label).config_cache = s.config_cache := rfl

theorem setFareLabel_route_state (s : GatewayState) (label : String) :
    (s.setFareLabel label).route_state = s.route_state := rfl

theorem setFareLabel_settings (s : GatewayState) (label : String) :
    (s.setFareLabel label).settings = s.settings := rfl

theorem setFareLabel_active_trips (s : GatewayState) (label : String) :
    (s.setFareLabel label).active_trips = s.active_trips := rfl

theorem setFareLabel_register_mode (s : GatewayState) (label : String) :
    (s.setFareLabel label).register_mode = s.register_mode := rfl

theorem setFareLabel_recharge_mode (s : GatewayState) (label : String) :
    (s.setFareLabel label).recharge_mode = s.recharge_mode := rfl

theorem setFareLabel_blacklist_cache (s : GatewayState) (label : String) :
    (s.setFareLabel label).blacklist_cache = s.blacklist_cache := rfl

theorem setFareLabel_last_passenger_tone (s : GatewayState) (label : String) :
    (s.setFareLabel label).last_passenger_tone = s.last_passenger_tone := rfl

theorem setFareLabel_last_passenger_message (s : GatewayState) (label : String) :
    (s.setFareLabel label).last_passenger_message = s.last_passenger_message := rfl

theorem setFareLabel_last_fare (s : GatewayState) (label : String) :
    (s.setFareLabel label).last_fare = s.last_fare := rfl

theorem setFareLabel_last_fare_base (s : GatewayState) (label : String) :
    (s.setFareLabel label).last_fare_base = s.last_fare_base := rfl

theorem noteCardData_card_cache (s : GatewayState) (cd : Option CardData) (err : Option String) :
    (s.noteCardData cd err).card_cache = s.card_cache := rfl

theorem noteCardData_config_cache (s : GatewayState) (cd : Option CardData) (err : Option String) :
    (s.noteCardData cd err).config_cache = s.config_cache := rfl

theorem noteCardData_route_state (s : GatewayState) (cd : Option CardData) (err : Option String) :
    (s.noteCardData cd err).route_state = s.route_state := rfl

theorem noteCardData_settings (s : GatewayState) (cd : Option CardData) (err : Option String) :
    (s.noteCardData cd err).settings = s.settings := rfl

theorem noteCardData_active_trips (s : GatewayState) (cd : Option CardData) (err : Option String) :
    (s.noteCardData cd err).active_trips = s.active_trips := rfl

theorem noteCardData_register_mode (s : GatewayState) (cd : Option CardData) (err : Option String) :
    (s.noteCardData cd err).register_mode = s.register_mode := rfl

theorem noteCardData_recharge_mode (s : GatewayState) (cd : Option CardData) (err : Option String) :
    (s.noteCardData cd err).recharge_mode = s.recharge_mode := rfl

theorem noteCardData_blacklist_cache (s : GatewayState) (cd : Option CardData) (err : Option String) :
    (s.noteCardData cd err).blacklist_cache = s.blacklist_cache := rfl

theorem noteCardData_last_passenger_tone (s : GatewayState) (cd : Option CardData) (err : Option String) :
    (s.noteCardData cd err).last_passenger_tone = s.last_passenger_tone := rfl

theorem noteCardData_last_passenger_message (s : GatewayState) (cd : Option CardData) (err : Option String) :
    (s.noteCardData cd err).last_passenger_message = s.last_passenger_message := rfl

theorem noteCardData_last_fare (s : GatewayState) (cd : Option CardData) (err : Option String) :
    (s.noteCardData cd err).last_fare = s.last_fare := rfl

theorem noteCardData_last_fare_base (s : GatewayState) (cd : Option CardData) (err : Option String) :
    (s.noteCardData cd err).last_fare_base = s.last_fare_base := rfl

theorem nextRecordId_card_cache (s : GatewayState) (now : Nat) :
    (s.nextRecordId now).1.card_cache = s.card_cache := rfl

theorem nextRecordId_config_cache (s : GatewayState) (now : Nat) :
    (s.nextRecordId now).1.config_cache = s.config_cache := rfl

theorem nextRecordId_route_state (s : GatewayState) (now : Nat) :
    (s.nextRecordId now).1.route_state = s.route_state := rfl

theorem nextRecordId_settings (s : GatewayState) (now : Nat) :
    (s.nextRecordId now).1.settings = s.settings := rfl

theorem nextRecordId_active_trips (s : GatewayState) (now : Nat) :
    (s.nextRecordId now).1.active_trips = s.active_trips := rfl

theorem nextRecordId_register_mode (s : GatewayState) (now : Nat) :
    (s.nextRecordId now).1.register_mode = s.register_mode := rfl

theorem nextRecordId_recharge_mode (s : GatewayState) (now : Nat) :
    (s.nextRecordId now).1.recharge_mode = s.recharge_mode := rfl

theorem nextRecordId_blacklist_cache (s : GatewayState) (now : Nat) :
    (s.nextRecordId now).1.blacklist_cache = s.blacklist_cache := rfl

theorem nextRecordId_last_passenger_tone (s : GatewayState) (now : Nat) :
    (s.nextRecordId now).1.last_passenger_tone = s.last_passenger_tone := rfl

theorem nextRecordId_last_passenger_message (s : GatewayState) (now : Nat) :
    (s.nextRecordId now).1.last_passenger_message = s.last_passenger_message := rfl

theorem nextRecordId_last_fare (s : GatewayState) (now : Nat) :
    (s.nextRecordId now).1.last_fare = s.last_fare := rfl

theorem nextRecordId_last_fare_base (s : GatewayState) (now : Nat) :
    (s.nextRecordId now).1.last_fare_base = s.last_fare_base := rfl

theorem buildWriteRequest_card_cache (s : GatewayState) (cardId : String) (cd : CardData) (ctx : WriteContext) :
    (s.buildWriteRequest cardId cd ctx).1.card_cache = s.card_cache := rfl

theorem buildWriteRequest_config_cache (s : GatewayState) (cardId : String) (cd : CardData) (ctx : WriteContext) :
    (s.buildWriteRequest cardId cd ctx).1.config_cache = s.config_cache := rfl

theorem buildWriteRequest_route_state (s : GatewayState) (cardId : String) (cd : CardData) (ctx : WriteContext) :
    (s.buildWriteRequest cardId cd ctx).1.route_state = s.route_state := rfl

theorem buildWriteRequest_settings (s : GatewayState) (cardId : String) (cd : CardData) (ctx : WriteContext) :
    (s.buildWriteRequest cardId cd ctx).1.settings = s.settings := rfl

theorem buildWriteRequest_active_trips (s : GatewayState) (cardId : String) (cd : CardData) (ctx : WriteContext) :
    (s.buildWriteRequest cardId cd ctx).1.active_trips = s.active_trips := rfl

theorem buildWriteRequest_register_mode (s : GatewayState) (cardId : String) (cd : CardData) (ctx : WriteContext) :
    (s.buildWriteRequest cardId cd ctx).1.register_mode = s.register_mode := rfl

theorem buildWriteRequest_recharge_mode (s : GatewayState) (cardId : String) (cd : CardData) (ctx : WriteContext) :
    (s.buildWriteRequest cardId cd ctx).1.recharge_mode = s.recharge_mode := rfl

theorem buildWriteRequest_blacklist_cache (s : GatewayState) (cardId : String) (cd : CardData) (ctx : WriteContext) :
    (s.buildWriteRequest cardId cd ctx).1.blacklist_cache = s.blacklist_cache := rfl

theorem buildWriteRequest_last_passenger_tone (s : GatewayState) (cardId : String) (cd : CardData) (ctx : WriteContext) :
    (s.buildWriteRequest cardId cd ctx).1.last_passenger_tone = s.last_passenger_tone := rfl

theorem buildWriteRequest_last_passenger_message (s : GatewayState) (cardId : String) (cd : CardData) (ctx : WriteContext) :
    (s.buildWriteRequest cardId cd ctx).1.last_passenger_message = s.last_passenger_message := rfl

theorem buildWriteRequest_last_fare (s : GatewayState) (cardId : String) (cd : CardData) (ctx : WriteContext) :
    (s.buildWriteRequest cardId cd ctx).1.last_fare = s.last_fare := rfl

theorem buildWriteRequest_last_fare_base (s : GatewayState) (cardId : String) (cd : CardData) (ctx : WriteContext) :
    (s.buildWriteRequest cardId cd ctx).1.last_fare_base = s.last_fare_base := rfl

theorem pushCardSnapshot_card_cache (s : GatewayState) (cardId : String) (cd : CardData) (src : String) (t : Nat) :
    (s.pushCardSnapshot cardId cd src t).card_cache = s.card_cache := rfl

theorem pushCardSnapshot_config_cache (s : GatewayState) (cardId : String) (cd : CardData) (src : String) (t : Nat) :
    (s.pushCardSnapshot cardId cd src t).config_cache = s.config_cache := rfl

theorem pushCardSnapshot_route_state (s : GatewayState) (cardId : String) (cd : CardData) (src : String) (t : Nat) :
    (s.pushCardSnapshot cardId cd src t).route_state = s.route_state := rfl

theorem pushCardSnapshot_settings (s : GatewayState) (cardId : String) (cd : CardData) (src : String) (t : Nat) :
    (s.pushCardSnapshot cardId cd src t).settings = s.settings := rfl

theorem pushCardSnapshot_active_trips (s : GatewayState) (cardId : String) (cd : CardData) (src : String) (t : Nat) :
    (s.pushCardSnapshot cardId cd src t).active_trips = s.active_trips := rfl

theorem pushCardSnapshot_register_mode (s : GatewayState) (cardId : String) (cd : CardData) (src : String) (t : Nat) :
    (s.pushCardSnapshot cardId cd src t).register_mode = s.register_mode := rfl

theorem pushCardSnapshot_recharge_mode (s : GatewayState) (cardId : String) (cd : CardData) (src : String) (t : Nat) :
    (s.pushCardSnapshot cardId cd src t).recharge_mode = s.recharge_mode := rfl

theorem pushCardSnapshot_blacklist_cache (s : GatewayState) (cardId : String) (cd : CardData) (src : String) (t : Nat) :
    (s.pushCardSnapshot cardId cd src t).blacklist_cache = s.blacklist_cache := rfl

theorem pushCardSnapshot_last_passenger_tone (s : GatewayState) (cardId : String) (cd : CardData) (src : String) (t : Nat) :
    (s.pushCardSnapshot cardId cd src t).last_passenger_tone = s.last_passenger_tone := rfl

theorem pushCardSnapshot_last_passenger_message (s : GatewayState) (cardId : String) (cd : CardData) (src : String) (t : Nat) :
    (s.pushCardSnapshot cardId cd src t).last_passenger_message = s.last_passenger_message := rfl

theorem pushCardSnapshot_last_fare (s : GatewayState) (cardId : String) (cd : CardData) (src : String) (t : Nat) :
    (s.pushCardSnapshot cardId cd src t).last_fare = s.last_fare := rfl

theorem pushCardSnapshot_last_fare_base (s : GatewayState) (cardId : String) (cd : CardData) (src : String) (t : Nat) :
    (s.pushCardSnapshot cardId cd src t).last_fare_base = s.last_fare_base := rfl

theorem rejectWithWrite_card_cache (s : GatewayState) (m : String) (wr : Option CardWriteRequest) (t : Nat) :
    ((s.rejectWithWrite m wr t).1).card_cache = s.card_cache := rfl

theorem rejectWithWrite_config_cache (s : GatewayState) (m : String) (wr : Option CardWriteRequest) (t : Nat) :
    ((s.rejectWithWrite m wr t).1).config_cache = s.config_cache := rfl

theorem rejectWithWrite_route_state (s : GatewayState) (m : String) (wr : Option CardWriteRequest) (t : Nat) :
    ((s.rejectWithWrite m wr t).1).route_state = s.route_state := rfl

theorem rejectWithWrite_settings (s : GatewayState) (m : String) (wr : Option CardWriteRequest) (t : Nat) :
    ((s.rejectWithWrite m wr t).1).settings = s.settings := rfl

theorem rejectWithWrite_active_trips (s : GatewayState) (m : String) (wr : Option CardWriteRequest) (t : Nat) :
    ((s.rejectWithWrite m wr t).1).active_trips = s.active_trips := rfl

theorem rejectWithWrite_register_mode (s : GatewayState) (m : String) (wr : Option CardWriteRequest) (t : Nat) :
    ((s.rejectWithWrite m wr t).1).register_mode = s.register_mode := rfl

theorem rejectWithWrite_recharge_mode (s : GatewayState) (m : String) (wr : Option CardWriteRequest) (t : Nat) :
    ((s.rejectWithWrite m wr t).1).recharge_mode = s.recharge_mode := rfl

theorem rejectWithWrite_blacklist_cache (s : GatewayState) (m : String) (wr : Option CardWriteRequest) (t : Nat) :
    ((s.rejectWithWrite m wr t).1).blacklist_cache = s.blacklist_cache := rfl

theorem rejectWithWrite_last_passenger_tone (s : GatewayState) (m : String) (wr : Option CardWriteRequest) (t : Nat) :
    ((s.rejectWithWrite m wr t).1).last_passenger_tone = PassengerTone.Error := rfl

theorem rejectWithWrite_last_passenger_message (s : GatewayState) (m : String) (wr : Option CardWriteRequest) (t : Nat) :
    ((s.rejectWithWrite m wr t).1).last_passenger_message = m := rfl

theorem rejectWithWrite_last_fare (s : GatewayState) (m : String) (wr : Option CardWriteRequest) (t : Nat) :
    ((s.rejectWithWrite m wr t).1).last_fare = (none : Option Q) := rfl

theorem rejectWithWrite_last_fare_base (s : GatewayState) (m : String) (wr : Option CardWriteRequest) (t : Nat) :
    ((s.rejectWithWrite m wr t).1).last_fare_base = (none : Option Q) := rfl

theorem tapPrelude_snd (s : GatewayState) (det : CardDetected) (now nowMs : Nat) :
    (s.tapPrelude det now nowMs).2 = (s.debounce.allow det.card_id now).2 := by
  unfold GatewayState.tapPrelude
  dsimp only
  rw [refreshModes_debounce]

theorem tapPrelude_card_cache (s : GatewayState) (det : CardDetected)
    (now nowMs : Nat) : (s.tapPrelude det now nowMs).1.card_cache = s.card_cache := by
  unfold GatewayState.tapPrelude
  dsimp only
  rw [refreshModes_card_cache]

theorem tapPrelude_config_cache (s : GatewayState) (det : CardDetected)
    (now nowMs : Nat) :
    (s.tapPrelude det now nowMs).1.config_cache = s.config_cache := by
  unfold GatewayState.tapPrelude
  dsimp only
  rw [refreshModes_config_cache]

theorem tapPrelude_route_state (s : GatewayState) (det : CardDetected)
    (now nowMs : Nat) :
    (s.tapPrelude det now nowMs).1.route_state = s.route_state := by
  unfold GatewayState.tapPrelude
  dsimp only
  rw [refreshModes_route_state]

theorem tapPrelude_settings (s : GatewayState) (det : CardDetected)
    (now nowMs : Nat) : (s.tapPrelude det now nowMs).1.settings = s.settings := by
  unfold GatewayState.tapPrelude
  dsimp only
  rw [refreshModes_settings]

theorem tapPrelude_active_trips (s : GatewayState) (det : CardDetected)
    (now nowMs : Nat) :
    (s.tapPrelude det now nowMs).1.active_trips = s.active_trips := by
  unfold GatewayState.tapPrelude
  dsimp only
  rw [refreshModes_active_trips]

theorem tapPrelude_blacklist_cache (s : GatewayState) (det : CardDetected)
    (now nowMs : Nat) :
    (s.tapPrelude det now nowMs).1.blacklist_cache = s.blacklist_cache := by
  unfold GatewayState.tapPrelude
  dsimp only
  rw [refreshModes_blacklist_cache]

theorem tapPrelude_register_mode (s : GatewayState) (det : CardDetected)
    (now nowMs : Nat) :
    (s.tapPrelude det now nowMs).1.register_mode =
      (s.refreshModes nowMs).register_mode := by
  unfold GatewayState.tapPrelude
  dsimp only

theorem tapPrelude_recharge_mode (s : GatewayState) (det : CardDetected)
    (now nowMs : Nat) :
    (s.tapPrelude det now nowMs).1.recharge_mode =
      (s.refreshModes nowMs).recharge_mode := by
  unfold GatewayState.tapPrelude
  dsimp only

theorem applyCardDiscount_card_cache (s : GatewayState) (ct : String) :
    (s.applyCardDiscount ct).card_cache = s.card_cache := by
  unfold GatewayState.applyCardDiscount
  dsimp only
  repeat' split
  all_goals rfl

theorem applyCardDiscount_config_cache (s : GatewayState) (ct : String) :
    (s.applyCardDiscount ct).config_cache = s.config_cache := by
  unfold GatewayState.applyCardDiscount
  dsimp only
  repeat' split
  all_goals rfl

theorem applyCardDiscount_route_state (s : GatewayState) (ct : String) :
    (s.applyCardDiscount ct).route_state = s.route_state := by
  unfold GatewayState.applyCardDiscount
  dsimp only
  repeat' split
  all_goals rfl

theorem applyCardDiscount_active_trips (s : GatewayState) (ct : String) :
    (s.applyCardDiscount ct).active_trips = s.active_trips := by
  unfold GatewayState.applyCardDiscount
  dsimp only
  repeat' split
  all_goals rfl

theorem applyCardDiscount_tone (s : GatewayState) (ct : String) :
    (s.applyCardDiscount ct).last_passenger_tone = s.last_passenger_tone := by
  unfold GatewayState.applyCardDiscount
  dsimp only
  repeat' split
  all_goals rfl

theorem applyCardDiscount_message (s : GatewayState) (ct : String) :
    (s.applyCardDiscount ct).last_passenger_message = s.last_passenger_message := by
  unfold GatewayState.applyCardDiscount
  dsimp only
  repeat' split
  all_goals rfl

theorem applyCardDiscountPolicy_card_cache (s : GatewayState) (ct : String)
    (r a : Option Q) :
    (s.applyCardDiscountPolicy ct r a).card_cache = s.card_cache := by
  unfold GatewayState.applyCardDiscountPolicy
  dsimp only
  repeat' split
  all_goals simp [applyCardDiscount_card_cache]

theorem applyCardDiscountPolicy_config_cache (s : GatewayState) (ct : String)
    (r a : Option Q) :
    (s.applyCardDiscountPolicy ct r a).config_cache = s.config_cache := by
  unfold GatewayState.applyCardDiscountPolicy
  dsimp only
  repeat' split
  all_goals simp [applyCardDiscount_config_cache]

theorem applyCardDiscountPolicy_route_state (s : GatewayState) (ct : String)
    (r a : Option Q) :
    (s.applyCardDiscountPolicy ct r a).route_state = s.route_state := by
  unfold GatewayState.applyCardDiscountPolicy
  dsimp only
  repeat' split
  all_goals simp [applyCardDiscount_route_state]

theorem applyCardDiscountPolicy_active_trips (s : GatewayState) (ct : String)
    (r a : Option Q) :
    (s.applyCardDiscountPolicy ct r a).active_trips = s.active_trips := by
  unfold GatewayState.applyCardDiscountPolicy
  dsimp only
  repeat' split
  all_goals simp [applyCardDiscount_active_trips]

theorem applyCardDiscountPolicy_tone (s : GatewayState) (ct : String)
    (r a : Option Q) :
    (s.applyCardDiscountPolicy ct r a).last_passenger_tone =
      s.last_passenger_tone := by
  unfold GatewayState.applyCardDiscountPolicy
  dsimp only
  repeat' split
  all_goals simp [applyCardDiscount_tone]

theorem applyCardDiscountPolicy_message (s : GatewayState) (ct : String)
    (r a : Option Q) :
    (s.applyCardDiscountPolicy ct r a).last_passenger_message =
      s.last_passenger_message := by
  unfold GatewayState.applyCardDiscountPolicy
  dsimp only
  repeat' split
  all_goals simp [applyCardDiscount_message]

theorem applyCachedProfile_card_cache (s : GatewayState) (c : String) (t : Nat) :
    (s.applyCachedProfile c t).card_cache = s.card_cache := by
  unfold GatewayState.applyCachedProfile
  dsimp only
  repeat' split
  all_goals simp [applyCardDiscountPolicy_card_cache]

theorem applyCachedProfile_config_cache (s : GatewayState) (c : String) (t : Nat) :
    (s.applyCachedProfile c t).config_cache = s.config_cache := by
  unfold GatewayState.applyCachedProfile
  dsimp only
  repeat' split
  all_goals simp [applyCardDiscountPolicy_config_cache]

theorem applyCachedProfile_route_state (s : GatewayState) (c : String) (t : Nat) :
    (s.applyCachedProfile c t).route_state = s.route_state := by
  unfold GatewayState.applyCachedProfile
  dsimp only
  repeat' split
  all_goals simp [applyCardDiscountPolicy_route_state]

theorem applyCachedProfile_active_trips (s : GatewayState) (c : String) (t : Nat) :
    (s.applyCachedProfile c t).active_trips = s.active_trips := by
  unfold GatewayState.applyCachedProfile
  dsimp only
  repeat' split
  all_goals simp [applyCardDiscountPolicy_active_trips]

/-- `apply_cached_profile` either leaves tone and message unchanged, leaves
    the message unchanged while setting a non-error tone, or sets the
    blocked/lost error messages. -/
theorem applyCachedProfile_msg (s : GatewayState) (c : String) (t : Nat) :
    (s.applyCachedProfile c t).last_passenger_message = "卡已冻结" ∨
      (s.applyCachedProfile c t).last_passenger_message = "卡已挂失" ∨
      ((s.applyCachedProfile c t).last_passenger_message =
          s.last_passenger_message ∧
        ((s.applyCachedProfile c t).last_passenger_tone = s.last_passenger_tone ∨
          (s.applyCachedProfile c t).last_passenger_tone ≠ PassengerTone.Error)) := by
  unfold GatewayState.applyCachedProfile
  dsimp only
  repeat' split
  all_goals
    simp [applyCardDiscountPolicy_message, applyCardDiscountPolicy_tone]

theorem finishTap_snd (s : GatewayState) (e : TapEvent) (u : Option UploadRecord)
    (wr : Option CardWriteRequest) (tt : TapType) (t : Nat) :
    (s.finishTap e u wr tt t).2 =
      ⟨CardAck.accepted, some e, u, wr, none⟩ := by
  unfold GatewayState.finishTap
  dsimp only

theorem finishTap_message (s : GatewayState) (e : TapEvent)
    (u : Option UploadRecord) (wr : Option CardWriteRequest) (tt : TapType)
    (t : Nat) :
    (s.finishTap e u wr tt t).1.last_passenger_message =
      if s.last_passenger_tone ≠ PassengerTone.Error then "刷卡成功"
      else s.last_passenger_message := by
  unfold GatewayState.finishTap
  dsimp only
  split
  all_goals simp_all

theorem finishTap_active_trips (s : GatewayState) (e : TapEvent)
    (u : Option UploadRecord) (wr : Option CardWriteRequest) (tt : TapType)
    (t : Nat) :
    (s.finishTap e u wr tt t).1.active_trips = s.active_trips := by
  unfold GatewayState.finishTap
  dsimp only
  split
  all_goals rfl

theorem rejectWithWrite_snd (s : GatewayState) (m : String)
    (wr : Option CardWriteRequest) (t : Nat) :
    (s.rejectWithWrite m wr t).2 = ⟨CardAck.rejected, none, none, wr, none⟩ := rfl

/-- `apply_balance` succeeding means the fare fit in the balance and the new
    balance is exactly the old balance minus the fare. -/
theorem applyBalance_spec (cd : CardData) (fareCents : Nat)
    (h : (applyBalance cd fareCents).2 = true) :
    fareCents ≤ cd.balance_cents ∧
      ((applyBalance cd fareCents).1.balance_cents : ℤ) =
        (cd.balance_cents : ℤ) - (fareCents : ℤ) := by
  unfold applyBalance at h ⊢
  by_cases h0 : fareCents = 0
  · subst h0
    simp
  · rw [if_neg h0] at h ⊢
    by_cases hlt : cd.balance_cents < fareCents
    · rw [if_pos hlt] at h
      simp at h
    · rw [if_neg hlt] at h ⊢
      dsimp only
      omega

/-- `apply_balance` never changes any field but the balance. -/
theorem applyBalance_fst (cd : CardData) (fareCents : Nat) :
    (applyBalance cd fareCents).1 =
      { cd with balance_cents := (applyBalance cd fareCents).1.balance_cents } := by
  unfold applyBalance
  repeat' split
  all_goals rfl

/-- After `insert`, the pending trip stored for the inserted event's card id
    is that event. -/
theorem activeLookup_insert (c : ActiveTripCache) (e : TapEvent) (now : Nat) :
    (c.insert e now).lookup e.card_id = some e := by
  unfold ActiveTripCache.insert ActiveTripCache.lookup
  dsimp only
  rw [List.find?_append]
  have hnone :
      (((c.purgeExpired now).entries.filter
          (fun x => ¬x.card_id = e.card_id)).find?
        (fun x => x.card_id = e.card_id)) = none := by
    rw [List.find?_eq_none]
    intro x hx
    have := (List.mem_filter.mp hx).2
    simpa using this
  rw [hnone]
  simp

theorem cachedProfile_congr (s₁ s₂ : GatewayState) (c : String) (t : Nat)
    (h : s₁.card_cache = s₂.card_cache) :
    s₁.cachedProfile c t = s₂.cachedProfile c t := by
  unfold GatewayState.cachedProfile
  rw [h]

theorem standardFare_congr (s₁ s₂ : GatewayState)
    (h : s₁.config_cache = s₂.config_cache) :
    s₁.standardFare = s₂.standardFare := by
  unfold GatewayState.standardFare
  rw [h]

theorem estimateTripFare_congr (s₁ s₂ : GatewayState) (a b : Nat)
    (h : s₁.config_cache = s₂.config_cache) :
    s₁.estimateTripFare a b = s₂.estimateTripFare a b := by
  unfold GatewayState.estimateTripFare
  rw [h]

theorem fareToCents_congr (s₁ s₂ : GatewayState)
    (hf : s₁.last_fare = s₂.last_fare)
    (hb : s₁.last_fare_base = s₂.last_fare_base) :
    s₁.fareToCents = s₂.fareToCents := by
  unfold GatewayState.fareToCents
  rw [hf, hb]

theorem tapResolveCard_congr (s₁ s₂ : GatewayState) (cardId : String)
    (uid : Option Uid4) (cd : Option CardData) (t : Nat)
    (h : s₁.card_cache = s₂.card_cache) :
    s₁.tapResolveCard cardId uid cd t = s₂.tapResolveCard cardId uid cd t := by
  unfold GatewayState.tapResolveCard
  rw [cachedProfile_congr s₁ s₂ cardId t h]

theorem rechargeResolveCard_congr (s₁ s₂ : GatewayState) (cardId : String)
    (cd : Option CardData) (t : Nat) (h : s₁.card_cache = s₂.card_cache) :
    s₁.rechargeResolveCard cardId cd t = s₂.rechargeResolveCard cardId cd t := by
  unfold GatewayState.rechargeResolveCard
  rw [cachedProfile_congr s₁ s₂ cardId t h]

theorem applyCardDiscount_fares_congr (s₁ s₂ : GatewayState) (ct : String)
    (hf : s₁.last_fare = s₂.last_fare)
    (hb : s₁.last_fare_base = s₂.last_fare_base) :
    (s₁.applyCardDiscount ct).last_fare = (s₂.applyCardDiscount ct).last_fare ∧
      (s₁.applyCardDiscount ct).last_fare_base =
        (s₂.applyCardDiscount ct).last_fare_base := by
  unfold GatewayState.applyCardDiscount
  rw [hf, hb]
  cases h : optOr s₂.last_fare_base s₂.last_fare with
  | none => simp only [h]; exact ⟨hf, hb⟩
  | some base =>
    simp only [h]
    cases hd : defaultDiscountFor ct.trim.toLower with
    | none => simp only [hd]; exact ⟨hf, hb⟩
    | some p =>
      obtain ⟨rate, lbl⟩ := p
      simp only [hd]
      refine ⟨?_, ?_⟩ <;> first | trivial | rfl | exact hf | exact hb

theorem applyCardDiscountPolicy_fares_congr (s₁ s₂ : GatewayState) (ct : String)
    (r a : Option Q) (hf : s₁.last_fare = s₂.last_fare)
    (hb : s₁.last_fare_base = s₂.last_fare_base) :
    (s₁.applyCardDiscountPolicy ct r a).last_fare =
        (s₂.applyCardDiscountPolicy ct r a).last_fare ∧
      (s₁.applyCardDiscountPolicy ct r a).last_fare_base =
        (s₂.applyCardDiscountPolicy ct r a).last_fare_base := by
  unfold GatewayState.applyCardDiscountPolicy
  rw [hf, hb]
  cases h : optOr s₂.last_fare_base s₂.last_fare with
  | none => simp only [h]; exact ⟨hf, hb⟩
  | some base =>
    simp only [h]
    repeat' split
    all_goals
      first
        | exact applyCardDiscount_fares_congr s₁ s₂ _ hf hb
        | exact ⟨rfl, rfl⟩
        | exact ⟨rfl, hb⟩
        | refine ⟨?_, ?_⟩ <;> first | trivial | rfl | exact hf | exact hb

theorem applyCachedProfile_fares_congr (s₁ s₂ : GatewayState) (c : String)
    (t : Nat) (hc : s₁.card_cache = s₂.card_cache)
    (hf : s₁.last_fare = s₂.last_fare)
    (hb : s₁.last_fare_base = s₂.last_fare_base) :
    (s₁.applyCachedProfile c t).last_fare = (s₂.applyCachedProfile c t).last_fare ∧
      (s₁.applyCachedProfile c t).last_fare_base =
        (s₂.applyCachedProfile c t).last_fare_base := by
  unfold GatewayState.applyCachedProfile
  rw [hc]
  cases hp : (List.find? (fun p => p.1 = c) s₂.card_cache).map (fun p => p.2) with
  | none => simp only [hp]; exact ⟨hf, hb⟩
  | some profile =>
    simp only [hp]
    split
    · exact ⟨hf, hb⟩
    · cases hst : profile.status with
      | some status =>
        simp only [hst]
        split
        · exact ⟨rfl, rfl⟩
        · split
          · exact ⟨rfl, rfl⟩
          · cases hct : profile.card_type with
            | none => simp only [hct]; exact ⟨hf, hb⟩
            | some cardType =>
              simp only [hct]
              refine applyCardDiscountPolicy_fares_congr _ _ _ _ _ ?_ ?_ <;>
                (repeat' split) <;> first | exact hf | exact hb
      | none =>
        simp only [hst]
        cases hct : profile.card_type with
        | none => simp only [hct]; exact ⟨hf, hb⟩
        | some cardType =>
          simp only [hct]
          refine applyCardDiscountPolicy_fares_congr _ _ _ _ _ ?_ ?_ <;>
            (repeat' split) <;> first | exact hf | exact hb

theorem singleTapFareCents_congr (s₁ s₂ : GatewayState) (c : String) (t : Nat)
    (hcc : s₁.card_cache = s₂.card_cache)
    (hcf : s₁.config_cache = s₂.config_cache) :
    s₁.singleTapFareCents c t = s₂.singleTapFareCents c t := by
  unfold GatewayState.singleTapFareCents
  rw [standardFare_congr s₁ s₂ hcf]
  exact fareToCents_congr _ _
    (applyCachedProfile_fares_congr (s₁.setFareDisplay s₂.standardFare "应付")
      (s₂.setFareDisplay s₂.standardFare "应付") c t hcc rfl rfl).1
    (applyCachedProfile_fares_congr (s₁.setFareDisplay s₂.standardFare "应付")
      (s₂.setFareDisplay s₂.standardFare "应付") c t hcc rfl rfl).2

theorem tapOutFareCents_congr (s₁ s₂ : GatewayState) (c : String) (b t : Nat)
    (hcc : s₁.card_cache = s₂.card_cache)
    (hcf : s₁.config_cache = s₂.config_cache)
    (hrs : s₁.route_state = s₂.route_state) :
    s₁.tapOutFareCents c b t = s₂.tapOutFareCents c b t := by
  unfold GatewayState.tapOutFareCents
  rw [standardFare_congr s₁ s₂ hcf, estimateTripFare_congr s₁ s₂ _ _ hcf, hrs]
  exact fareToCents_congr _ _
    (applyCachedProfile_fares_congr
      ((s₁.setFares (optOr (s₂.estimateTripFare b s₂.route_state.station_id)
          s₂.standardFare)).setFareLabel "结算价")
      ((s₂.setFares (optOr (s₂.estimateTripFare b s₂.route_state.station_id)
          s₂.standardFare)).setFareLabel "结算价") c t hcc rfl rfl).1
    (applyCachedProfile_fares_congr
      ((s₁.setFares (optOr (s₂.estimateTripFare b s₂.route_state.station_id)
          s₂.standardFare)).setFareLabel "结算价")
      ((s₂.setFares (optOr (s₂.estimateTripFare b s₂.route_state.station_id)
          s₂.standardFare)).setFareLabel "结算价") c t hcc rfl rfl).2

theorem tapModeOf_congr (s₁ s₂ : GatewayState)
    (h : s₁.config_cache = s₂.config_cache) :
    s₁.tapModeOf = s₂.tapModeOf := by
  unfold GatewayState.tapModeOf
  rw [h]

/-- `apply_balance` succeeding means the fare fit in the balance and the new
    balance is the old balance minus the fare (natural subtraction). -/
theorem applyBalance_true (cd : CardData) (f : Nat)
    (h : (applyBalance cd f).2 = true) :
    f ≤ cd.balance_cents ∧
      (applyBalance cd f).1.balance_cents = cd.balance_cents - f := by
  obtain ⟨h1, h2⟩ := applyBalance_spec cd f h
  exact ⟨h1, by omega⟩

/-- A balance short of a positive fare makes `apply_balance` fail. -/
theorem applyBalance_false (cd : CardData) (f : Nat)
    (h : cd.balance_cents < f) : ¬((applyBalance cd f).2 = true) := by
  have hne : ¬(f = 0) := by omega
  unfold applyBalance
  rw [if_neg hne, if_pos h]
  exact Bool.false_ne_true

/-- Accepted write request of the single-tap arm: the written card's balance
    is the old balance minus the charged fare, which fit. -/
theorem tapSingleArm_spec (s : GatewayState) (cid : String) (c0 : CardData)
    (sf : Option Q) (event : TapEvent) (nowMs : Nat) (s' : GatewayState)
    (d : Decision) (w : CardWriteRequest)
    (h : s.tapSingleArm cid c0 sf event nowMs = (s', d))
    (hw : d.write_request = some w) :
    ∃ cd : CardData, w.card_data = cd.toBytes ∧
      ((s.setFareDisplay sf "应付").applyCachedProfile cid nowMs).fareToCents
          ≤ c0.balance_cents ∧
      cd.balance_cents =
        c0.balance_cents -
          ((s.setFareDisplay sf "应付").applyCachedProfile cid nowMs).fareToCents := by
  unfold GatewayState.tapSingleArm at h
  dsimp only at h
  split at h
  · obtain ⟨hs, hd⟩ := Prod.ext_iff.mp h
    dsimp only at hd
    rw [← hd] at hw
    exact Option.noConfusion hw
  · next hok =>
    have hok' := not_not.mp hok
    obtain ⟨hs, hd⟩ := Prod.ext_iff.mp h
    dsimp only at hd
    rw [finishTap_snd] at hd
    rw [← hd] at hw
    have hww := Option.some.inj hw
    obtain ⟨h1, h2⟩ := applyBalance_true c0 _ hok'
    subst hww
    exact ⟨_, rfl, h1, h2⟩

/-- Accepted write request of the tap-in-out boarding arm: the written card
    keeps its balance unchanged. -/
theorem tapInOutInArm_spec (s : GatewayState) (cid : String) (c0 : CardData)
    (sf : Option Q) (event : TapEvent) (now nowMs : Nat) (s' : GatewayState)
    (d : Decision) (w : CardWriteRequest)
    (h : s.tapInOutInArm cid c0 sf event now nowMs = (s', d))
    (hw : d.write_request = some w) :
    ∃ cd : CardData, w.card_data = cd.toBytes ∧
      cd.balance_cents = c0.balance_cents := by
  unfold GatewayState.tapInOutInArm at h
  dsimp only at h
  obtain ⟨hs, hd⟩ := Prod.ext_iff.mp h
  dsimp only at hd
  rw [finishTap_snd] at hd
  rw [← hd] at hw
  have hww := Option.some.inj hw
  subst hww
  exact ⟨_, rfl, rfl⟩

/-- Accepted write request of the tap-out arm: the written card's balance is
    the old balance minus the settled trip fare, which fit. -/
theorem tapOutArm_spec (s : GatewayState) (cid : String) (c0 : CardData)
    (sf : Option Q) (rem : Option TapEvent) (board event : TapEvent)
    (now nowMs : Nat) (s' : GatewayState) (d : Decision) (w : CardWriteRequest)
    (h : s.tapOutArm cid c0 sf rem (some board) event now nowMs = (s', d))
    (hw : d.write_request = some w) :
    ∃ cd : CardData, w.card_data = cd.toBytes ∧
      (((s.setFares
            (optOr (s.estimateTripFare board.station_id event.station_id)
              sf)).setFareLabel "结算价").applyCachedProfile cid
          nowMs).fareToCents ≤ c0.balance_cents ∧
      cd.balance_cents =
        c0.balance_cents -
          (((s.setFares
                (optOr (s.estimateTripFare board.station_id event.station_id)
                  sf)).setFareLabel "结算价").applyCachedProfile cid
              nowMs).fareToCents := by
  unfold GatewayState.tapOutArm at h
  dsimp only at h
  split at h
  · obtain ⟨hs, hd⟩ := Prod.ext_iff.mp h
    dsimp only at hd
    rw [← hd] at hw
    exact Option.noConfusion hw
  · next hok =>
    have hok' := not_not.mp hok
    obtain ⟨hs, hd⟩ := Prod.ext_iff.mp h
    dsimp only at hd
    rw [finishTap_snd] at hd
    rw [← hd] at hw
    have hww := Option.some.inj hw
    obtain ⟨h1, h2⟩ := applyBalance_true c0 _ hok'
    subst hww
    exact ⟨_, rfl, h1, h2⟩

/-- A tap-out whose settled fare exceeds the balance rejects the tap and
    re-inserts the removed boarding event into the active-trip cache. -/
theorem tapOutArm_reject (s : GatewayState) (cid : String) (c0 : CardData)
    (sf : Option Q) (prev board event : TapEvent) (now nowMs : Nat)
    (s' : GatewayState) (d : Decision)
    (h : s.tapOutArm cid c0 sf (some prev) (some board) event now nowMs = (s', d))
    (hfail : c0.balance_cents <
      (((s.setFares
            (optOr (s.estimateTripFare board.station_id event.station_id)
              sf)).setFareLabel "结算价").applyCachedProfile cid
          nowMs).fareToCents) :
    d.ack = CardAck.rejected ∧
      s'.active_trips = s.active_trips.insert prev now := by
  unfold GatewayState.tapOutArm at h
  dsimp only at h
  rw [if_pos (applyBalance_false c0 _ hfail)] at h
  obtain ⟨hs, hd⟩ := Prod.ext_iff.mp h
  dsimp only at hs hd
  constructor
  · rw [← hd]
    rfl
  · rw [← hs, GatewayState.rejectCard, rejectWithWrite_active_trips,
      setActiveTrips_active_trips, applyCachedProfile_active_trips,
      setFareLabel_active_trips, setFares_active_trips]

theorem dispatchState_card_cache (s : GatewayState) (det : CardDetected)
    (now nowMs : Nat) (a : Option CardData) (b : Option String) :
    ((s.tapPrelude det now nowMs).1.noteCardData a b).card_cache =
      s.card_cache := by
  rw [noteCardData_card_cache, tapPrelude_card_cache]

theorem dispatchState_config_cache (s : GatewayState) (det : CardDetected)
    (now nowMs : Nat) (a : Option CardData) (b : Option String) :
    ((s.tapPrelude det now nowMs).1.noteCardData a b).config_cache =
      s.config_cache := by
  rw [noteCardData_config_cache, tapPrelude_config_cache]

theorem dispatchState_route_state (s : GatewayState) (det : CardDetected)
    (now nowMs : Nat) (a : Option CardData) (b : Option String) :
    ((s.tapPrelude det now nowMs).1.noteCardData a b).route_state =
      s.route_state := by
  rw [noteCardData_route_state, tapPrelude_route_state]

theorem dispatchState_active_trips (s : GatewayState) (det : CardDetected)
    (now nowMs : Nat) (a : Option CardData) (b : Option String) :
    ((s.tapPrelude det now nowMs).1.noteCardData a b).active_trips =
      s.active_trips := by
  rw [noteCardData_active_trips, tapPrelude_active_trips]

theorem dispatchState_blacklist_cache (s : GatewayState) (det : CardDetected)
    (now nowMs : Nat) (a : Option CardData) (b : Option String) :
    ((s.tapPrelude det now nowMs).1.noteCardData a b).blacklist_cache =
      s.blacklist_cache := by
  rw [noteCardData_blacklist_cache, tapPrelude_blacklist_cache]

theorem dispatchState_register_mode (s : GatewayState) (det : CardDetected)
    (now nowMs : Nat) (a : Option CardData) (b : Option String) :
    ((s.tapPrelude det now nowMs).1.noteCardData a b).register_mode =
      (s.refreshModes nowMs).register_mode := by
  rw [noteCardData_register_mode, tapPrelude_register_mode]

theorem dispatchState_recharge_mode (s : GatewayState) (det : CardDetected)
    (now nowMs : Nat) (a : Option CardData) (b : Option String) :
    ((s.tapPrelude det now nowMs).1.noteCardData a b).recharge_mode =
      (s.refreshModes nowMs).recharge_mode := by
  rw [noteCardData_recharge_mode, tapPrelude_recharge_mode]

/-- `reject_card` never carries a write request. -/
theorem rejectCard_no_write (s s' : GatewayState) (m : String) (t : Nat)
    (d : Decision) (w : CardWriteRequest)
    (h : s.rejectCard m t = (s', d)) : ¬(d.write_request = some w) := by
  obtain ⟨hs, hd⟩ := Prod.ext_iff.mp h
  dsimp only at hd
  intro hw
  rw [← hd] at hw
  exact Option.noConfusion hw

/-- `reject_blacklisted` always answers with the rejected ACK. -/
theorem rejectBlacklisted_not_accepted (s : GatewayState) (cid : String)
    (cdata : Option CardData) (t : Nat) (s' : GatewayState) (d : Decision)
    (h : s.rejectBlacklisted cid cdata t = (s', d)) :
    ¬(d.ack = CardAck.accepted) := by
  obtain ⟨hs, hd⟩ := Prod.ext_iff.mp h
  dsimp only at hd
  intro hacc
  rw [← hd] at hacc
  have hq : CardAck.rejected = CardAck.accepted := hacc
  simp [CardAck.rejected, CardAck.accepted] at hq

/-- An accepted registration write carries a blank card holding the default
    register balance. -/
theorem handleRegister_spec (s : GatewayState) (cid : String)
    (uid : Option Uid4) (cdata : Option CardData) (nowMs : Nat)
    (s' : GatewayState) (d : Decision) (w : CardWriteRequest)
    (h : s.handleRegister cid uid cdata nowMs = (s', d))
    (hw : d.write_request = some w) :
    ∃ cd : CardData, w.card_data = cd.toBytes ∧
      cd.balance_cents = DEFAULT_REGISTER_BALANCE_CENTS := by
  unfold GatewayState.handleRegister at h
  split at h
  · exact absurd hw (rejectCard_no_write _ _ _ _ _ _ h)
  · split at h
    · exact absurd hw (rejectCard_no_write _ _ _ _ _ _ h)
    · dsimp only at h
      obtain ⟨hs, hd⟩ := Prod.ext_iff.mp h
      dsimp only at hd
      rw [← hd] at hw
      have hww := Option.some.inj hw
      subst hww
      exact ⟨_, rfl, rfl⟩

/-- An accepted recharge write credits the resolved card's balance with the
    active mode's amount, saturating. -/
theorem handleRecharge_spec (s : GatewayState) (cid : String)
    (cdata : Option CardData) (nowMs : Nat) (s' : GatewayState) (d : Decision)
    (w : CardWriteRequest)
    (h : s.handleRecharge cid cdata nowMs = (s', d))
    (hw : d.write_request = some w) :
    ∃ (mode : RechargeMode) (c0 cd : CardData),
      s.recharge_mode = some mode ∧
      s.rechargeResolveCard cid cdata nowMs = .ok c0 ∧
      w.card_data = cd.toBytes ∧
      cd.balance_cents = satAdd32 c0.balance_cents mode.amount_cents := by
  unfold GatewayState.handleRecharge at h
  split at h
  · exact absurd hw (rejectCard_no_write _ _ _ _ _ _ h)
  · next mode hmode =>
    split at h
    · exact absurd hw (rejectCard_no_write _ _ _ _ _ _ h)
    · next c0 hres =>
      dsimp only at h
      split at h
      · exact absurd hw (rejectCard_no_write _ _ _ _ _ _ h)
      · obtain ⟨hs, hd⟩ := Prod.ext_iff.mp h
        dsimp only at hd
        rw [← hd] at hw
        have hww := Option.some.inj hw
        subst hww
        exact ⟨mode, c0, _, hmode, hres, rfl, rfl⟩

/-- A zero single-tap fare accepts the tap and writes the card back with an
    unchanged balance. -/
theorem tapSingleArm_zero (s : GatewayState) (cid : String) (c0 : CardData)
    (sf : Option Q) (event : TapEvent) (nowMs : Nat) (s' : GatewayState)
    (d : Decision)
    (h : s.tapSingleArm cid c0 sf event nowMs = (s', d))
    (hf : ((s.setFareDisplay sf "应付").applyCachedProfile cid
        nowMs).fareToCents = 0) :
    d.ack = CardAck.accepted ∧
      ∃ (ww : CardWriteRequest) (cd : CardData),
        d.write_request = some ww ∧ ww.card_data = cd.toBytes ∧
        cd.balance_cents = c0.balance_cents := by
  unfold GatewayState.tapSingleArm at h
  dsimp only at h
  rw [hf] at h
  rw [show applyBalance c0 0 = (c0, true) from rfl] at h
  dsimp only at h
  rw [if_neg (fun hc => hc rfl)] at h
  obtain ⟨hs, hd⟩ := Prod.ext_iff.mp h
  dsimp only at hd
  rw [finishTap_snd] at hd
  subst hd
  exact ⟨rfl, _, _, rfl, rfl, rfl⟩

/-- Every accepted tap-path decision that carries a write request wrote back
    the resolved card's balance minus a charged fare that fit (the fare being
    the single-tap fare, a settled tap-out fare, or zero for a boarding
    write). -/
theorem tapPath_spec (s : GatewayState) (cid : String) (c0 : CardData)
    (tapTime now nowMs : Nat) (s' : GatewayState) (d : Decision)
    (w : CardWriteRequest)
    (h : s.tapPath cid c0 tapTime now nowMs = (s', d))
    (hw : d.write_request = some w) :
    ∃ (cd : CardData) (F : Nat), w.card_data = cd.toBytes ∧
      (F = s.singleTapFareCents cid nowMs ∨
        (∃ b, F = s.tapOutFareCents cid b nowMs) ∨ F = 0) ∧
      F ≤ c0.balance_cents ∧ cd.balance_cents = c0.balance_cents - F := by
  unfold GatewayState.tapPath at h
  split at h
  · exact absurd hw (rejectCard_no_write _ _ _ _ _ _ h)
  · dsimp only at h
    cases hm : s.tapModeOf with
    | SingleTap =>
      rw [hm] at h
      dsimp only at h
      obtain ⟨cd, hcd, hle, hbal⟩ := tapSingleArm_spec _ _ _ _ _ _ _ _ _ h hw
      have hF : GatewayState.singleTapFareCents
          ((((s.setActiveTrips s.active_trips).nextRecordId now).1).setNormalTone)
          cid nowMs = s.singleTapFareCents cid nowMs :=
        singleTapFareCents_congr _ s cid nowMs rfl rfl
      refine ⟨cd, s.singleTapFareCents cid nowMs, hcd, Or.inl rfl, ?_, ?_⟩
      · rw [← hF]
        exact hle
      · rw [← hF]
        exact hbal
    | TapInOut =>
      rw [hm] at h
      dsimp only at h
      rcases ht : s.active_trips.take cid now with ⟨t2, rem⟩
      rw [ht] at h
      dsimp only at h
      cases rem with
      | none =>
        rw [if_neg (show ¬((none : Option TapEvent).isSome = true) from
          Bool.false_ne_true)] at h
        dsimp only at h
        obtain ⟨cd, hcd, hbal⟩ := tapInOutInArm_spec _ _ _ _ _ _ _ _ _ _ h hw
        exact ⟨cd, 0, hcd, Or.inr (Or.inr rfl), Nat.zero_le _, by
          rw [Nat.sub_zero]; exact hbal⟩
      | some prev =>
        rw [if_pos (show (some prev).isSome = true from rfl)] at h
        dsimp only at h
        obtain ⟨cd, hcd, hle, hbal⟩ :=
          tapOutArm_spec _ _ _ _ _ _ _ _ _ _ _ _ h hw
        have hF : GatewayState.tapOutFareCents
            ((((s.setActiveTrips t2).nextRecordId now).1).setNormalTone)
            cid prev.station_id nowMs =
            s.tapOutFareCents cid prev.station_id nowMs :=
          tapOutFareCents_congr _ s cid prev.station_id nowMs rfl rfl rfl
        refine ⟨cd, s.tapOutFareCents cid prev.station_id nowMs, hcd,
          Or.inr (Or.inl ⟨prev.station_id, rfl⟩), ?_, ?_⟩
        · rw [← hF]
          exact hle
        · rw [← hF]
          exact hbal

/-- C1: whenever `handle_card_detected` returns an accepted decision carrying
    a write request, the balance written onto the card is the registration
    default, the resolved balance plus the recharge amount (saturating), or
    the resolved balance minus a charged fare that fit in the balance (the
    single-tap fare, a settled tap-out fare, or zero for a boarding write) —
    in particular the written balance never underflows below zero. -/
theorem claim_C1 (s : GatewayState) (det : CardDetected) (now nowMs : Nat)
    (s' : GatewayState) (d : Decision) (w : CardWriteRequest)
    (h : s.handleCardDetected det now nowMs = (s', d))
    (hacc : d.ack = CardAck.accepted)
    (hw : d.write_request = some w) :
    ∃ cd : CardData, w.card_data = cd.toBytes ∧
      (cd.balance_cents = DEFAULT_REGISTER_BALANCE_CENTS ∨
        (∃ (mode : RechargeMode) (c0 : CardData),
          (s.refreshModes nowMs).recharge_mode = some mode ∧
          s.rechargeResolveCard det.card_id
              (parseCardBlock det.card_data (decodeUidHex det.card_id)).1
              nowMs = .ok c0 ∧
          cd.balance_cents = satAdd32 c0.balance_cents mode.amount_cents) ∨
        (∃ (c0 : CardData) (F : Nat),
          s.tapResolveCard det.card_id (decodeUidHex det.card_id)
              (parseCardBlock det.card_data (decodeUidHex det.card_id)).1
              nowMs = .ok c0 ∧
          (F = s.singleTapFareCents det.card_id nowMs ∨
            (∃ b, F = s.tapOutFareCents det.card_id b nowMs) ∨ F = 0) ∧
          F ≤ c0.balance_cents ∧
          cd.balance_cents = c0.balance_cents - F)) := by
  unfold GatewayState.handleCardDetected at h
  dsimp only at h
  split at h
  · exact absurd hw (rejectCard_no_write _ _ _ _ _ _ h)
  · split at h
    · exact absurd hacc (rejectBlacklisted_not_accepted _ _ _ _ _ _ h)
    · split at h
      · obtain ⟨cd, hcd, hbal⟩ := handleRegister_spec _ _ _ _ _ _ _ _ h hw
        exact ⟨cd, hcd, Or.inl hbal⟩
      · split at h
        · obtain ⟨mode, c0, cd, hmode, hres, hcd, hbal⟩ :=
            handleRecharge_spec _ _ _ _ _ _ _ h hw
          rw [rechargeResolveCard_congr _ s det.card_id _ nowMs
            (dispatchState_card_cache s det now nowMs
              (parseCardBlock det.card_data (decodeUidHex det.card_id)).1
              (parseCardBlock det.card_data (decodeUidHex det.card_id)).2)] at hres
          exact ⟨cd, hcd, Or.inr (Or.inl ⟨mode, c0, hmode, hres, hbal⟩)⟩
        · split at h
          · exact absurd hw (rejectCard_no_write _ _ _ _ _ _ h)
          · next c0 hres =>
            obtain ⟨cd, F, hcd, hF, hle, hbal⟩ :=
              tapPath_spec _ _ _ _ _ _ _ _ _ h hw
            rw [tapResolveCard_congr _ s det.card_id _ _ nowMs
              (dispatchState_card_cache s det now nowMs
                (parseCardBlock det.card_data (decodeUidHex det.card_id)).1
                (parseCardBlock det.card_data (decodeUidHex det.card_id)).2)] at hres
            refine ⟨cd, hcd, Or.inr (Or.inr ⟨c0, F, hres, ?_, hle, hbal⟩)⟩
            rcases hF with h1 | ⟨b, h2⟩ | h3
            · exact Or.inl (h1.trans (singleTapFareCents_congr _ s det.card_id
                nowMs
                (dispatchState_card_cache s det now nowMs
                  (parseCardBlock det.card_data (decodeUidHex det.card_id)).1
                  (parseCardBlock det.card_data (decodeUidHex det.card_id)).2)
                (dispatchState_config_cache s det now nowMs
                  (parseCardBlock det.card_data (decodeUidHex det.card_id)).1
                  (parseCardBlock det.card_data (decodeUidHex det.card_id)).2)))
            · exact Or.inr (Or.inl ⟨b, h2.trans (tapOutFareCents_congr _ s
                det.card_id b nowMs
                (dispatchState_card_cache s det now nowMs
                  (parseCardBlock det.card_data (decodeUidHex det.card_id)).1
                  (parseCardBlock det.card_data (decodeUidHex det.card_id)).2)
                (dispatchState_config_cache s det now nowMs
                  (parseCardBlock det.card_data (decodeUidHex det.card_id)).1
                  (parseCardBlock det.card_data (decodeUidHex det.card_id)).2)
                (dispatchState_route_state s det now nowMs
                  (parseCardBlock det.card_data (decodeUidHex det.card_id)).1
                  (parseCardBlock det.card_data (decodeUidHex det.card_id)).2))⟩)
            · exact Or.inr (Or.inr h3)

/-- C2: in tap-in-out mode, a tap-out whose settled fare exceeds the card's
    balance is rejected and the pending boarding event that `take` removed is
    re-inserted, so the active-trip cache still holds the pending trip for
    that card id after the call. -/
theorem claim_C2 (s : GatewayState) (det : CardDetected) (c0 : CardData)
    (prev : TapEvent) (t2 : ActiveTripCache) (now nowMs : Nat)
    (s' : GatewayState) (d : Decision)
    (h : s.handleCardDetected det now nowMs = (s', d))
    (hdeb : (s.tapPrelude det now nowMs).2 = true)
    (hbl : s.blacklist_cache.isBlocked det.card_id = false)
    (hreg : (s.refreshModes nowMs).register_mode = none)
    (hrec : (s.refreshModes nowMs).recharge_mode = none)
    (hres : s.tapResolveCard det.card_id (decodeUidHex det.card_id)
        (parseCardBlock det.card_data (decodeUidHex det.card_id)).1 nowMs =
        .ok c0)
    (hst : ¬(c0.status = CardStatus.Blocked))
    (hmode : s.tapModeOf = TapMode.TapInOut)
    (htake : s.active_trips.take det.card_id now = (t2, some prev))
    (hprev : prev.card_id = det.card_id)
    (hfail : c0.balance_cents <
      s.tapOutFareCents det.card_id prev.station_id nowMs) :
    d.ack = CardAck.rejected ∧
      s'.active_trips.lookup det.card_id = some prev := by
  unfold GatewayState.handleCardDetected at h
  dsimp only at h
  rw [hdeb] at h
  rw [if_neg (fun hc => hc rfl)] at h
  rw [dispatchState_blacklist_cache s det now nowMs
      (parseCardBlock det.card_data (decodeUidHex det.card_id)).1
      (parseCardBlock det.card_data (decodeUidHex det.card_id)).2, hbl] at h
  rw [if_neg Bool.false_ne_true] at h
  rw [dispatchState_register_mode s det now nowMs
      (parseCardBlock det.card_data (decodeUidHex det.card_id)).1
      (parseCardBlock det.card_data (decodeUidHex det.card_id)).2, hreg,
    Option.isSome_none] at h
  rw [if_neg Bool.false_ne_true] at h
  rw [dispatchState_recharge_mode s det now nowMs
      (parseCardBlock det.card_data (decodeUidHex det.card_id)).1
      (parseCardBlock det.card_data (decodeUidHex det.card_id)).2, hrec,
    Option.isSome_none] at h
  rw [if_neg Bool.false_ne_true] at h
  rw [tapResolveCard_congr _ s det.card_id _ _ nowMs
      (dispatchState_card_cache s det now nowMs
        (parseCardBlock det.card_data (decodeUidHex det.card_id)).1
        (parseCardBlock det.card_data (decodeUidHex det.card_id)).2),
    hres] at h
  dsimp only at h
  unfold GatewayState.tapPath at h
  rw [if_neg hst] at h
  dsimp only at h
  rw [tapModeOf_congr _ s
      (dispatchState_config_cache s det now nowMs
        (parseCardBlock det.card_data (decodeUidHex det.card_id)).1
        (parseCardBlock det.card_data (decodeUidHex det.card_id)).2),
    hmode] at h
  dsimp only at h
  rw [dispatchState_active_trips s det now nowMs
      (parseCardBlock det.card_data (decodeUidHex det.card_id)).1
      (parseCardBlock det.card_data (decodeUidHex det.card_id)).2, htake] at h
  dsimp only at h
  rw [if_pos (show (some prev).isSome = true from rfl)] at h
  dsimp only at h
  have hF : GatewayState.tapOutFareCents
      ((((((s.tapPrelude det now nowMs).1.noteCardData
            (parseCardBlock det.card_data (decodeUidHex det.card_id)).1
            (parseCardBlock det.card_data
              (decodeUidHex det.card_id)).2).setActiveTrips
          t2).nextRecordId now).1).setNormalTone)
      det.card_id prev.station_id nowMs =
      s.tapOutFareCents det.card_id prev.station_id nowMs :=
    tapOutFareCents_congr _ s det.card_id prev.station_id nowMs
      (Eq.trans rfl (dispatchState_card_cache s det now nowMs
        (parseCardBlock det.card_data (decodeUidHex det.card_id)).1
        (parseCardBlock det.card_data (decodeUidHex det.card_id)).2))
      (Eq.trans rfl (dispatchState_config_cache s det now nowMs
        (parseCardBlock det.card_data (decodeUidHex det.card_id)).1
        (parseCardBlock det.card_data (decodeUidHex det.card_id)).2))
      (Eq.trans rfl (dispatchState_route_state s det now nowMs
        (parseCardBlock det.card_data (decodeUidHex det.card_id)).1
        (parseCardBlock det.card_data (decodeUidHex det.card_id)).2))
  obtain ⟨hack, htr⟩ :=
    tapOutArm_reject _ _ _ _ _ _ _ _ _ _ _ h (lt_of_lt_of_eq hfail hF.symm)
  refine ⟨hack, ?_⟩
  rw [htr, ← hprev]
  exact activeLookup_insert _ prev now

/-- C9: on the normal single-tap path, a fare of zero cents is accepted and
    deducts nothing — the write request carries the card's unchanged
    balance. -/
theorem claim_C9 (s : GatewayState) (det : CardDetected) (c0 : CardData)
    (now nowMs : Nat) (s' : GatewayState) (d : Decision)
    (h : s.handleCardDetected det now nowMs = (s', d))
    (hdeb : (s.tapPrelude det now nowMs).2 = true)
    (hbl : s.blacklist_cache.isBlocked det.card_id = false)
    (hreg : (s.refreshModes nowMs).register_mode = none)
    (hrec : (s.refreshModes nowMs).recharge_mode = none)
    (hres : s.tapResolveCard det.card_id (decodeUidHex det.card_id)
        (parseCardBlock det.card_data (decodeUidHex det.card_id)).1 nowMs =
        .ok c0)
    (hst : ¬(c0.status = CardStatus.Blocked))
    (hmode : s.tapModeOf = TapMode.SingleTap)
    (hfare : s.singleTapFareCents det.card_id nowMs = 0) :
    d.ack = CardAck.accepted ∧
      ∃ (ww : CardWriteRequest) (cd : CardData),
        d.write_request = some ww ∧ ww.card_data = cd.toBytes ∧
        cd.balance_cents = c0.balance_cents := by
  unfold GatewayState.handleCardDetected at h
  dsimp only at h
  rw [hdeb] at h
  rw [if_neg (fun hc => hc rfl)] at h
  rw [dispatchState_blacklist_cache s det now nowMs
      (parseCardBlock det.card_data (decodeUidHex det.card_id)).1
      (parseCardBlock det.card_data (decodeUidHex det.card_id)).2, hbl] at h
  rw [if_neg Bool.false_ne_true] at h
  rw [dispatchState_register_mode s det now nowMs
      (parseCardBlock det.card_data (decodeUidHex det.card_id)).1
      (parseCardBlock det.card_data (decodeUidHex det.card_id)).2, hreg,
    Option.isSome_none] at h
  rw [if_neg Bool.false_ne_true] at h
  rw [dispatchState_recharge_mode s det now nowMs
      (parseCardBlock det.card_data (decodeUidHex det.card_id)).1
      (parseCardBlock det.card_data (decodeUidHex det.card_id)).2, hrec,
    Option.isSome_none] at h
  rw [if_neg Bool.false_ne_true] at h
  rw [tapResolveCard_congr _ s det.card_id _ _ nowMs
      (dispatchState_card_cache s det now nowMs
        (parseCardBlock det.card_data (decodeUidHex det.card_id)).1
        (parseCardBlock det.card_data (decodeUidHex det.card_id)).2),
    hres] at h
  dsimp only at h
  unfold GatewayState.tapPath at h
  rw [if_neg hst] at h
  dsimp only at h
  rw [tapModeOf_congr _ s
      (dispatchState_config_cache s det now nowMs
        (parseCardBlock det.card_data (decodeUidHex det.card_id)).1
        (parseCardBlock det.card_data (decodeUidHex det.card_id)).2),
    hmode] at h
  dsimp only at h
  have hF : GatewayState.singleTapFareCents
      ((((((s.tapPrelude det now nowMs).1.noteCardData
            (parseCardBlock det.card_data (decodeUidHex det.card_id)).1
            (parseCardBlock det.card_data
              (decodeUidHex det.card_id)).2).setActiveTrips
          ((s.tapPrelude det now nowMs).1.noteCardData
            (parseCardBlock det.card_data (decodeUidHex det.card_id)).1
            (parseCardBlock det.card_data
              (decodeUidHex det.card_id)).2).active_trips).nextRecordId
        now).1).setNormalTone)
      det.card_id nowMs = s.singleTapFareCents det.card_id nowMs :=
    singleTapFareCents_congr _ s det.card_id nowMs
      (Eq.trans rfl (dispatchState_card_cache s det now nowMs
        (parseCardBlock det.card_data (decodeUidHex det.card_id)).1
        (parseCardBlock det.card_data (decodeUidHex det.card_id)).2))
      (Eq.trans rfl (dispatchState_config_cache s det now nowMs
        (parseCardBlock det.card_data (decodeUidHex det.card_id)).1
        (parseCardBlock det.card_data (decodeUidHex det.card_id)).2))
  exact tapSingleArm_zero _ _ _ _ _ _ _ _ h (hF.trans hfare)

/-- Witness for C1 at a concrete accepted single tap. -/
theorem claim_C1_witness :
    ∃ cd : CardData, c1W.card_data = cd.toBytes ∧
      (cd.balance_cents = DEFAULT_REGISTER_BALANCE_CENTS ∨
        (∃ (mode : RechargeMode) (c0 : CardData),
          (c9State.refreshModes 1000).recharge_mode = some mode ∧
          c9State.rechargeResolveCard c9Det.card_id
              (parseCardBlock c9Det.card_data (decodeUidHex c9Det.card_id)).1
              1000 = .ok c0 ∧
          cd.balance_cents = satAdd32 c0.balance_cents mode.amount_cents) ∨
        (∃ (c0 : CardData) (F : Nat),
          c9State.tapResolveCard c9Det.card_id (decodeUidHex c9Det.card_id)
              (parseCardBlock c9Det.card_data (decodeUidHex c9Det.card_id)).1
              1000 = .ok c0 ∧
          (F = c9State.singleTapFareCents c9Det.card_id 1000 ∨
            (∃ b, F = c9State.tapOutFareCents c9Det.card_id b 1000) ∨ F = 0) ∧
          F ≤ c0.balance_cents ∧
          cd.balance_cents = c0.balance_cents - F)) :=
  claim_C1 c9State c9Det 100 1000
    (c9State.handleCardDetected c9Det 100 1000).1
    (c9State.handleCardDetected c9Det 100 1000).2 c1W rfl rfl rfl

/-- Witness for C2 at a concrete underfunded tap-out. -/
theorem claim_C2_witness :
    (c2State.handleCardDetected c2Det 100 1000).2.ack = CardAck.rejected ∧
      (c2State.handleCardDetected c2Det 100 1000).1.active_trips.lookup
        c2Det.card_id = some c2Prev :=
  claim_C2 c2State c2Det c2Card c2Prev ⟨3600, []⟩ 100 1000
    (c2State.handleCardDetected c2Det 100 1000).1
    (c2State.handleCardDetected c2Det 100 1000).2
    rfl (by decide) (by decide) (by decide) (by decide) (by decide)
    (by decide) (by decide) (by decide) (by decide) (by decide)

/-- Witness for C9 at a concrete zero-fare single tap. -/
theorem claim_C9_witness :
    (c9State.handleCardDetected c9Det 100 1000).2.ack = CardAck.accepted ∧
      ∃ (ww : CardWriteRequest) (cd : CardData),
        (c9State.handleCardDetected c9Det 100 1000).2.write_request =
            some ww ∧
        ww.card_data = cd.toBytes ∧
        cd.balance_cents = c9Card.balance_cents :=
  claim_C9 c9State c9Det c9Card 100 1000
    (c9State.handleCardDetected c9Det 100 1000).1
    (c9State.handleCardDetected c9Det 100 1000).2
    rfl (by decide) (by decide) (by decide) (by decide) (by decide)
    (by decide) (by decide) (by decide)

/-- Witness for C4 at a concrete valid card. -/
theorem claim_C4_witness :
    c4Card.ValidFields ∧
      CardData.fromBytesVerbose c4Card.toBytes = .ok c4Card :=
  ⟨by decide, claim_C4 c4Card (by decide)⟩
